import Mathlib

/-!
Verification of the crash-log scanning engine of Buffout4-CLAS
(`CLASSIC_ScanLogs.py`) against its natural-language specification.

The Python source is shallowly embedded: strings are Lean `String`s, but
every string primitive the source uses (`in`, `startswith`, `split`,
`replace`, `strip`, `lower`, `count`, regex matching) is implemented
structurally over `List Char` so that all definitions evaluate inside the
kernel.  Python dicts are association lists preserving insertion order,
Python exceptions are modelled with `Except String`.
-/

namespace CLAS

/-- Python whitespace class used by `str.strip` and by the regex class
in ASCII range: space, tab, newline, carriage return, vertical tab,
form feed. -/
def isPySpace (c : Char) : Bool :=
  c == ' ' || c == '\t' || c == '\n' || c == '\r' || c == '\x0b' || c == '\x0c'

/-- Prefix test on character lists. -/
def isPrefixL : List Char → List Char → Bool
  | [], _ => true
  | _ :: _, [] => false
  | a :: as, b :: bs => a == b && isPrefixL as bs

/-- Substring occurrence test on character lists (nonempty pattern). -/
def containsGo : List Char → List Char → Bool
  | [], _ => false
  | c :: rest, pat => isPrefixL pat (c :: rest) || containsGo rest pat

/-- Python `pat in s` (substring containment); the empty pattern is
contained in every string. -/
def strContains (s pat : String) : Bool :=
  if pat.isEmpty then true else containsGo s.data pat.data

/-- Python `s.startswith(pre)`. -/
def strStartsWith (s pre : String) : Bool := isPrefixL pre.data s.data

/-- Split a character list at the first occurrence of a pattern,
returning the part before and the part after the occurrence. -/
def splitFirst : List Char → List Char → Option (List Char × List Char)
  | s, pat =>
    if isPrefixL pat s then some ([], s.drop pat.length)
    else match s with
      | [] => none
      | c :: rest =>
        match splitFirst rest pat with
        | some (a, b) => some (c :: a, b)
        | none => none

/-- Python `s.split(sep, 1)`: a one- or two-element list. -/
def pySplit1 (s sep : String) : List String :=
  match splitFirst s.data sep.data with
  | some (a, b) => [String.mk a, String.mk b]
  | none => [s]

/-- Python `s.split(sep, 1)` unpacked into a pair, for call sites that
are guarded by a containment test (so the separator is present and the
second component is exact); without the separator the second component
defaults to the empty string. -/
def pySplitPair (s sep : String) : String × String :=
  match splitFirst s.data sep.data with
  | some (a, b) => (String.mk a, String.mk b)
  | none => (s, "")

/-- Python `s.replace(pat, rep, 1)`: replace the first occurrence only. -/
def replaceFirst (s pat rep : String) : String :=
  match splitFirst s.data pat.data with
  | some (a, b) => String.mk (a ++ rep.data ++ b)
  | none => s

/-- Count non-overlapping occurrences, left to right (fuelled). -/
def countOccAux : Nat → List Char → List Char → Nat
  | 0, _, _ => 0
  | f + 1, s, pat =>
    match splitFirst s pat with
    | some (_, b) => 1 + countOccAux f b pat
    | none => 0

/-- Python `s.count(pat)`; for the empty pattern Python returns
`len(s) + 1`. -/
def strCount (s pat : String) : Nat :=
  if pat.isEmpty then s.data.length + 1
  else countOccAux (s.data.length + 1) s.data pat.data

/-- Python `s.strip()`. -/
def pyStrip (s : String) : String :=
  String.mk (((s.data.dropWhile isPySpace).reverse.dropWhile isPySpace).reverse)

/-- Python `s.lower()` (ASCII, which covers all strings the scanner
compares). -/
def strLower (s : String) : String := String.mk (s.data.map Char.toLower)

/-- Python `s.upper()` (ASCII). -/
def strUpper (s : String) : String := String.mk (s.data.map Char.toUpper)

/-- Python `s.isdecimal()` for ASCII digit strings. -/
def isDecimalStr (s : String) : Bool := !s.isEmpty && s.data.all Char.isDigit

/-- Python `int(s)` on a decimal-digit string. -/
def pyIntOfDecimal (s : String) : Nat := s.toNat?.getD 0

/-! ### Python dict as an insertion-ordered association list -/

/-- Python `d[k] = v`: update in place if the key exists, else append. -/
def dictSet (d : List (String × String)) (k v : String) : List (String × String) :=
  if d.any (fun p => p.1 == k) then
    d.map (fun p => if p.1 == k then (k, v) else p)
  else d ++ [(k, v)]

/-- Python `if k in d: del d[k]`. -/
def dictDel (d : List (String × String)) (k : String) : List (String × String) :=
  d.filter (fun p => p.1 != k)

/-- Keys of a dict, in insertion order. -/
def dictKeys (d : List (String × String)) : List String := d.map Prod.fst

/-! ### The bracket-index regex of `get_crash_log_plugins`

`re.match(r"\s*\[(FE:([0-9A-F]{3})|[0-9A-F]{2})\]\s*(.+?(?:\.es[pml])+)", e, re.IGNORECASE)`
implemented as a parser with the same backtracking semantics:
the alternation tries `FE:` + three hex digits first, then two hex
digits; the lazy `.+?` takes the shortest nonempty prefix after which
one or more (greedy) `\.es[pml]` units match. -/

/-- Case-insensitive character comparison (`re.IGNORECASE`). -/
def charCI (a b : Char) : Bool := a.toLower == b.toLower

/-- Hex digit class `[0-9A-F]` under `re.IGNORECASE`. -/
def isHexDigitCI (c : Char) : Bool :=
  c.isDigit || ('A' ≤ c && c ≤ 'F') || ('a' ≤ c && c ≤ 'f')

/-- Parse `(FE:([0-9A-F]{3})|[0-9A-F]{2})\]` after the opening bracket;
returns the text of capture group 1 and the remaining characters. -/
def parseFidAlt (cs : List Char) : Option (String × List Char) :=
  (match cs with
   | f :: e :: colon :: h1 :: h2 :: h3 :: rb :: rest =>
     if charCI f 'F' && charCI e 'E' && colon == ':' &&
        isHexDigitCI h1 && isHexDigitCI h2 && isHexDigitCI h3 && rb == ']' then
       some (String.mk [f, e, colon, h1, h2, h3], rest)
     else none
   | _ => none)
  <|>
  (match cs with
   | h1 :: h2 :: rb :: rest =>
     if isHexDigitCI h1 && isHexDigitCI h2 && rb == ']' then
       some (String.mk [h1, h2], rest)
     else none
   | _ => none)

/-- Parse one `\.es[pml]` unit (case-insensitive). -/
def parseEsExt : List Char → Option (List Char × List Char)
  | d :: e :: s :: x :: rest =>
    if d == '.' && charCI e 'e' && charCI s 's' &&
       (charCI x 'p' || charCI x 'm' || charCI x 'l') then
      some ([d, e, s, x], rest)
    else none
  | _ => none

/-- Greedy `(?:\.es[pml])+`: one or more units, as many as possible. -/
def parseEsExtsGreedy : Nat → List Char → Option (List Char × List Char)
  | 0, _ => none
  | f + 1, cs =>
    match parseEsExt cs with
    | none => none
    | some (x, rest) =>
      match parseEsExtsGreedy f rest with
      | some (y, rest2) => some (x ++ y, rest2)
      | none => some (x, rest)

/-- Lazy `.+?(?:\.es[pml])+`: shortest nonempty prefix of non-newline
characters followed by a maximal run of `\.es[pml]` units; returns the
whole matched text (capture group 3). -/
def parseLazyName : Nat → List Char → Option (List Char × List Char)
  | 0, _ => none
  | f + 1, cs =>
    match cs with
    | [] => none
    | c :: rest =>
      if c == '\n' then none
      else
        match parseEsExtsGreedy (rest.length + 1) rest with
        | some (ext, rest2) => some (c :: ext, rest2)
        | none =>
          match parseLazyName f rest with
          | some (nm, rest2) => some (c :: nm, rest2)
          | none => none

/-- The whole anchored pattern; returns `(group 1, group 3)` on success:
the bracket index text and the plugin file name. -/
def pluginSearchMatch (s : String) : Option (String × String) :=
  match s.data.dropWhile isPySpace with
  | '[' :: rest =>
    match parseFidAlt rest with
    | none => none
    | some (fid, rest2) =>
      let rest3 := rest2.dropWhile isPySpace
      match parseLazyName rest3.length rest3 with
      | none => none
      | some (nm, _) => some (fid, String.mk nm)
  | _ => none

/-! ### `find_segments` (CLASSIC_ScanLogs.py lines 209-269) -/

/-- Loop state of `find_segments`: the index cursor, collection flag,
boundary-pair index, slice start, collected segments and the three
opportunistically captured header fields. -/
structure FSState where
  current_index : Nat
  collect : Bool
  segment_index : Nat
  index_start : Nat
  segments : List (List String)
  gameversion : Option String
  crashgen : Option String
  mainerror : Option String
  next_boundary : String
deriving Repr, DecidableEq

/-- The six boundary pairs, parameterised by the upper-cased XSE
acronym; `"EOF"` is the sentinel end marker of the last pair. -/
def segment_boundaries (xse_upper : String) : List (String × String) :=
  [("\t[Compatibility]", "SYSTEM SPECS:"),
   ("SYSTEM SPECS:", "PROBABLE CALL STACK:"),
   ("PROBABLE CALL STACK:", "MODULES:"),
   ("MODULES:", xse_upper ++ " PLUGINS:"),
   (xse_upper ++ " PLUGINS:", "PLUGINS:"),
   ("PLUGINS:", "EOF")]

/-- `segment_boundaries[i][collect]` of the source. -/
def boundaryAt (bs : List (String × String)) (i : Nat) (c : Bool) : String :=
  let p := bs.getD i ("", "")
  if c then p.2 else p.1

/-- Python slice `l[a:b]` for natural indices. -/
def pySlice (l : List String) (a b : Nat) : List String := (l.take b).drop a

/-- Bottom of the while loop: `current_index += 1` followed by
`if collect and current_index == total: segments.append(crash_data[index_start:])`. -/
def fsAdvance (crash_data : List String) (st : FSState) : FSState :=
  let st := { st with current_index := st.current_index + 1 }
  if st.collect && st.current_index == crash_data.length then
    { st with segments := st.segments ++ [crash_data.drop st.index_start] }
  else st

/-- One fuelled run of the `while current_index < total` loop of
`find_segments`.  The `continue` that re-examines a matched end-marker
line is the recursive call that leaves `current_index` unchanged. -/
def findSegmentsLoop (crash_data : List String) (bs : List (String × String))
    (game_root_name crashgen_name : String) : Nat → FSState → FSState
  | 0, st => st
  | f + 1, st =>
    if st.current_index < crash_data.length then
      let line := crash_data.getD st.current_index ""
      let st :=
        if st.gameversion.isNone && !game_root_name.isEmpty &&
           strStartsWith line game_root_name then
          { st with gameversion := some (pyStrip line) }
        else st
      if st.crashgen.isNone then
        let st :=
          if strStartsWith line crashgen_name then
            { st with crashgen := some (pyStrip line) }
          else st
        findSegmentsLoop crash_data bs game_root_name crashgen_name f (fsAdvance crash_data st)
      else if st.mainerror.isNone && strStartsWith line "Unhandled exception" then
        let st := { st with mainerror := some (replaceFirst line "|" "\n") }
        findSegmentsLoop crash_data bs game_root_name crashgen_name f (fsAdvance crash_data st)
      else if strStartsWith line st.next_boundary then
        if st.collect then
          let index_end :=
            if st.current_index > 0 then st.current_index - 1 else st.current_index
          let st := { st with
            segments := st.segments ++ [pySlice crash_data st.index_start index_end],
            segment_index := st.segment_index + 1 }
          if st.segment_index == 6 then st
          else
            let st := { st with
              collect := false,
              next_boundary := boundaryAt bs st.segment_index false }
            findSegmentsLoop crash_data bs game_root_name crashgen_name f st
        else
          let st := { st with
            index_start :=
              if crash_data.length > st.current_index then st.current_index + 1
              else st.current_index,
            collect := true }
          let st := { st with next_boundary := boundaryAt bs st.segment_index true }
          if st.next_boundary == "EOF" then
            { st with segments := st.segments ++ [crash_data.drop st.index_start] }
          else
            findSegmentsLoop crash_data bs game_root_name crashgen_name f (fsAdvance crash_data st)
      else
        findSegmentsLoop crash_data bs game_root_name crashgen_name f (fsAdvance crash_data st)
    else st

/-- `find_segments(crash_data, xse_acronym, crashgen_name)`; the
localized game root name read from configuration is passed explicitly.
Returns `(gameversion, crashgen_version, mainerror, segments)` with
`"UNKNOWN"` defaults and the result padded to six segments of trimmed
lines. -/
def findSegmentsResult (fin : FSState) :
    String × String × String × List (List String) :=
  (fin.gameversion.getD "UNKNOWN", fin.crashgen.getD "UNKNOWN",
   fin.mainerror.getD "UNKNOWN",
   fin.segments.map (fun seg => seg.map pyStrip) ++
     List.replicate (6 - (fin.segments.map (fun seg => seg.map pyStrip)).length) [])

def find_segments (crash_data : List String) (xse_acronym crashgen_name game_root_name : String) :
    String × String × String × List (List String) :=
  findSegmentsResult (findSegmentsLoop crash_data (segment_boundaries (strUpper xse_acronym))
    game_root_name crashgen_name (2 * crash_data.length + 1)
    { current_index := 0, collect := false, segment_index := 0, index_start := 0,
      segments := [], gameversion := none, crashgen := none, mainerror := none,
      next_boundary := boundaryAt (segment_boundaries (strUpper xse_acronym)) 0 false })

/-! ### `get_crash_log_plugins` (CLASSIC_ScanLogs.py lines 643-690) -/

/-- The three crash-log segments consumed by plugin-table
construction. -/
structure SegmentsInput where
  plugins : List String
  xsemodules : List String
  allmodules : List String
deriving Repr, DecidableEq

/-- The `xsemodules_lower` property of `CrashLogSegments`: lower-case
each module name, strip a version suffix after `" v"` when the literal
substring `"dll v"` occurs, strip whitespace, and deduplicate (the
source builds a Python set; insertion order of first occurrences is
used here as its iteration order). -/
def xsemodules_lower (xsemodules : List String) : List String :=
  ((xsemodules.map strLower).map (fun x =>
    if strContains x "dll v" then pyStrip ((pySplit1 x " v").headD x) else pyStrip x)).eraseDups

/-- One iteration of the Plugins-segment loop: regex-match the line and
file the captured name under the captured index, else under `DLL` or
`???` when the duplicate-check fails. -/
def pluginLineStep (acc : List (String × String)) (elem : String) : List (String × String) :=
  match pluginSearchMatch elem with
  | none => acc
  | some (plugin_fid, plugin_name) =>
    if acc.all (fun item => !strContains item.1 plugin_name) then
      dictSet acc plugin_name (String.mk (plugin_fid.data.filter (fun c => c != ':')))
    else if !plugin_name.isEmpty && strContains (strLower plugin_name) "dll" then
      dictSet acc plugin_name "DLL"
    else
      dictSet acc plugin_name "???"

/-- The AllModules scan for `"vulkan"` lines; faithful to the source,
`elem_parts[1] = "DLL"` raises `IndexError` when the stripped line has
no space. -/
def vulkanStep : List String → List (String × String) → Except String (List (String × String))
  | [], acc => Except.ok acc
  | elem :: rest, acc =>
    if strContains (strLower elem) "vulkan" then
      match pySplit1 (pyStrip elem) " " with
      | [first, _] =>
        if acc.all (fun item => !strContains item.1 first) then
          vulkanStep rest (dictSet acc first "DLL")
        else vulkanStep rest acc
      | _ => Except.error "IndexError: list assignment index out of range"
    else vulkanStep rest acc

/-- `get_crash_log_plugins(segments, ignore_plugins_list)`.  The
current game name and the optional `loadorder.txt` contents are passed
explicitly (the source reads them from globals and the filesystem). -/
def get_crash_log_plugins (game : String) (segments : SegmentsInput)
    (loadorder : Option (List String)) (ignore_plugins_list : List String) :
    Except String (List (String × String)) :=
  let esm_name := game ++ ".esm"
  if !(segments.plugins.any (fun elem => strContains elem esm_name)) then
    Except.ok []
  else
    match loadorder with
    | some loadorder_data =>
      Except.ok ((loadorder_data.drop 1).foldl (fun acc elem =>
        if acc.all (fun item => !strContains item.1 elem) then dictSet acc elem "LO"
        else acc) [])
    | none =>
      let t1 := segments.plugins.foldl pluginLineStep []
      let t2 := (xsemodules_lower segments.xsemodules).foldl (fun acc elem =>
        if acc.all (fun item => !strContains item.1 elem) then dictSet acc elem "DLL"
        else acc) t1
      match vulkanStep segments.allmodules t2 with
      | Except.error e => Except.error e
      | Except.ok t3 =>
        Except.ok (ignore_plugins_list.foldl (fun acc signal =>
          if acc.any (fun p => p.1 == signal) then dictDel acc signal else acc) t3)

/-! ### Stack-suspect rule evaluation (`process_crash_suspects`,
CLASSIC_ScanLogs.py lines 727-757) -/

/-- The four booleans threaded through one rule's signal loop. -/
structure SuspectFlags where
  error_req_found : Bool
  error_opt_found : Bool
  stack_found : Bool
  has_required_item : Bool
deriving Repr, DecidableEq

/-- The signal loop of the stack-list check.  A bare signal is a
call-stack substring test; `ME-REQ|`/`ME-OPT|` test the main error;
`NOT|` with its text in the call stack breaks out of the loop; a
decimal modifier is a minimum occurrence count.  Any other modifier
falls through all cases. -/
def processSignals (mainerror callstack : String) : List String → SuspectFlags → SuspectFlags
  | [], fl => fl
  | signal :: rest, fl =>
    if !strContains signal "|" then
      let fl := if strContains callstack signal then { fl with stack_found := true } else fl
      processSignals mainerror callstack rest fl
    else
      let parts := pySplitPair signal "|"
      let signal_modifier := parts.1
      let signal_string := parts.2
      if signal_modifier == "ME-REQ" then
        let fl := { fl with has_required_item := true }
        let fl :=
          if strContains mainerror signal_string then { fl with error_req_found := true }
          else fl
        processSignals mainerror callstack rest fl
      else if signal_modifier == "ME-OPT" then
        let fl :=
          if strContains mainerror signal_string then { fl with error_opt_found := true }
          else fl
        processSignals mainerror callstack rest fl
      else if signal_modifier == "NOT" && strContains callstack signal_string then
        fl
      else if isDecimalStr signal_modifier then
        let fl :=
          if strCount callstack signal_string ≥ pyIntOfDecimal signal_modifier then
            { fl with stack_found := true }
          else fl
        processSignals mainerror callstack rest fl
      else
        processSignals mainerror callstack rest fl

/-- Whether one stack rule matches: the final test
`(has_required_item and error_req_found) or
 (not has_required_item and (error_opt_found or stack_found))`. -/
def suspectStackMatch (mainerror callstack : String) (signal_list : List String) : Bool :=
  let fl := processSignals mainerror callstack signal_list
    { error_req_found := false, error_opt_found := false,
      stack_found := false, has_required_item := false }
  (fl.has_required_item && fl.error_req_found) ||
    (!fl.has_required_item && (fl.error_opt_found || fl.stack_found))

/-- Signal classifier: carries the `ME-REQ` modifier. -/
def isMEREQ (signal : String) : Bool :=
  strContains signal "|" && (pySplitPair signal "|").1 == "ME-REQ"

/-- An `ME-REQ` signal whose text occurs in the main error. -/
def mereqMatched (mainerror : String) (signal : String) : Bool :=
  isMEREQ signal && strContains mainerror (pySplitPair signal "|").2

/-- An `ME-OPT` signal whose text occurs in the main error. -/
def meoptMatched (mainerror : String) (signal : String) : Bool :=
  strContains signal "|" && (pySplitPair signal "|").1 == "ME-OPT" &&
    strContains mainerror (pySplitPair signal "|").2

/-- A bare or count signal satisfied by the call stack. -/
def stackSignalMatched (callstack : String) (signal : String) : Bool :=
  if !strContains signal "|" then strContains callstack signal
  else
    isDecimalStr (pySplitPair signal "|").1 &&
      decide (strCount callstack (pySplitPair signal "|").2 ≥
        pyIntOfDecimal (pySplitPair signal "|").1)

/-- A `NOT|text` signal whose text occurs in the call stack — the
condition under which the signal loop breaks. -/
def isTriggeredNOT (callstack : String) (signal : String) : Bool :=
  strContains signal "|" && (pySplitPair signal "|").1 == "NOT" &&
    strContains callstack (pySplitPair signal "|").2

/-! ### Mod detectors (`detect_mods_single`, `detect_mods_double`,
`detect_mods_important`, CLASSIC_ScanLogs.py lines 138-205) -/

/-- `{key.lower(): value for key, value in d.items()}`. -/
def lowerKeys (d : List (String × String)) : List (String × String) :=
  d.foldl (fun acc p => dictSet acc (strLower p.1) p.2) []

/-- The rule loop of `detect_mods_single`: first plugin whose name
contains the rule key triggers the rule; an empty warning raises
`ValueError`. -/
def detectSingleLoop (plugins : List (String × String)) :
    List (String × String) → List String → Bool → Except String (List String × Bool)
  | [], report, found => Except.ok (report, found)
  | rule :: rest, report, found =>
    match plugins.find? (fun p => strContains p.1 rule.1) with
    | none => detectSingleLoop plugins rest report found
    | some p =>
      if rule.2 = "" then
        Except.error ("ERROR: " ++ rule.1 ++ " has no warning in the database!")
      else
        detectSingleLoop plugins rest
          (report ++ ["[!] FOUND : [" ++ p.2 ++ "] ", rule.2]) true

/-- `detect_mods_single(yaml_dict, crashlog_plugins, autoscan_report)`;
returns the report lines it appends together with the
`trigger_mod_found` flag. -/
def detect_mods_single (yaml_dict crashlog_plugins : List (String × String)) :
    Except String (List String × Bool) :=
  detectSingleLoop (lowerKeys crashlog_plugins) (lowerKeys yaml_dict) [] false

/-- The plugin loop of `detect_mods_double`: each plugin can satisfy at
most one of the two key fragments per iteration (the `continue`
statements); `mod_split[1]` is only evaluated when the second fragment
is still unmatched, raising `IndexError` on a key without `" | "`. -/
def doubleScan (mod_split : List String) :
    List String → Bool → Bool → Except String (Bool × Bool)
  | [], f1, f2 => Except.ok (f1, f2)
  | p :: rest, f1, f2 =>
    if !f1 && strContains p (mod_split.headD "") then
      doubleScan mod_split rest true f2
    else if !f2 then
      match mod_split.get? 1 with
      | none => Except.error "IndexError: list index out of range"
      | some m2 =>
        if strContains p m2 then doubleScan mod_split rest f1 true
        else doubleScan mod_split rest f1 f2
    else doubleScan mod_split rest f1 f2

/-- The rule loop of `detect_mods_double`. -/
def detectDoubleLoop (pluginKeys : List String) :
    List (String × String) → List String → Bool → Except String (List String × Bool)
  | [], report, found => Except.ok (report, found)
  | rule :: rest, report, found =>
    let mod_split := pySplit1 rule.1 " | "
    match doubleScan mod_split pluginKeys false false with
    | Except.error e => Except.error e
    | Except.ok (f1, f2) =>
      if f1 && f2 then
        if rule.2 = "" then
          Except.error ("ERROR: " ++ rule.1 ++ " has no warning in the database!")
        else
          detectDoubleLoop pluginKeys rest (report ++ ["[!] CAUTION : ", rule.2]) true
      else detectDoubleLoop pluginKeys rest report found

/-- `detect_mods_double(yaml_dict, crashlog_plugins, autoscan_report)`. -/
def detect_mods_double (yaml_dict crashlog_plugins : List (String × String)) :
    Except String (List String × Bool) :=
  detectDoubleLoop (dictKeys (lowerKeys crashlog_plugins)) (lowerKeys yaml_dict) [] false

/-- One rule of `detect_mods_important`.  `gpu_rival = none` is Python
`None`; Python truthiness of the rival string is `getD "" ≠ ""`.
`mod_split[1]` raises `IndexError` on a key without `" | "`. -/
def importantRule (gpu_rival : Option String) (plugins : List String)
    (rule : String × String) : Except String (List String) :=
  let mod_split := pySplit1 rule.1 " | "
  let grs := gpu_rival.getD ""
  let mod_found := plugins.any (fun p =>
    strContains (strLower p) (strLower (mod_split.headD "")))
  if mod_found then
    if grs ≠ "" ∧ strContains (strLower rule.2) grs = true then
      match mod_split.get? 1 with
      | none => Except.error "IndexError: list index out of range"
      | some disp =>
        Except.ok ["❓ " ++ disp ++ " is installed, BUT IT SEEMS YOU DON'T HAVE AN " ++
            strUpper grs ++ " GPU?\n",
          "IF THIS IS CORRECT, COMPLETELY UNINSTALL THIS MOD TO AVOID ANY PROBLEMS! \n\n"]
    else
      match mod_split.get? 1 with
      | none => Except.error "IndexError: list index out of range"
      | some disp => Except.ok ["✔️ " ++ disp ++ " is installed!\n\n"]
  else
    if (grs ≠ "" ∧ rule.2 ≠ "") ∧ strContains (strLower rule.2) grs = false then
      match mod_split.get? 1 with
      | none => Except.error "IndexError: list index out of range"
      | some disp => Except.ok ["❌ " ++ disp ++ " is not installed!\n", rule.2, "\n"]
    else Except.ok []

/-- The rule loop of `detect_mods_important`. -/
def detectImportantLoop (plugins : List String) (gpu_rival : Option String) :
    List (String × String) → List String → Except String (List String)
  | [], report => Except.ok report
  | rule :: rest, report =>
    match importantRule gpu_rival plugins rule with
    | Except.error e => Except.error e
    | Except.ok out => detectImportantLoop plugins gpu_rival rest (report ++ out)

/-- `detect_mods_important(yaml_dict, crashlog_plugins, autoscan_report,
gpu_rival)`; returns the report lines it appends. -/
def detect_mods_important (yaml_dict crashlog_plugins : List (String × String))
    (gpu_rival : Option String) : Except String (List String) :=
  detectImportantLoop (dictKeys crashlog_plugins) gpu_rival yaml_dict []

/-- `get_gpu_info(system_segment)`: AMD flag, Nvidia flag, integrated
flag. -/
def get_gpu_info (system_segment : List String) : Bool × Bool × Bool :=
  let gpu_amd := system_segment.any (fun elem =>
    strContains elem "GPU #1" && strContains elem "AMD")
  let gpu_nvidia := system_segment.any (fun elem =>
    strContains elem "GPU #1" && strContains elem "Nvidia")
  (gpu_amd, gpu_nvidia, !gpu_amd && !gpu_nvidia)

/-- The `gpu_rival` computation of `process_mod_compatibility`:
`"nvidia" if gpu_amd else "amd" if gpu_nvidia else None`. -/
def mod_compat_gpu_rival (gpu_amd gpu_nvidia : Bool) : Option String :=
  if gpu_amd then some "nvidia" else if gpu_nvidia then some "amd" else none

/-! ### Specification-side helpers for header-field capture -/

/-- Cumulative effect of the game-version capture branch over a block
of scanned lines. -/
def gvUpdate (game_root_name : String) (gv : Option String) (block : List String) :
    Option String :=
  gv <|> (if game_root_name.isEmpty then none
          else (block.find? (fun l => strStartsWith l game_root_name)).map pyStrip)

/-- Cumulative effect of the main-error capture branch over a block of
scanned lines (only active once the crashgen field is set). -/
def meUpdate (me : Option String) (block : List String) : Option String :=
  me <|> (block.find? (fun l => strStartsWith l "Unhandled exception")).map
    (fun l => replaceFirst l "|" "\n")

/-- Effect of the game-version capture branch on one scanned line. -/
def gvStep (game_root_name : String) (gv : Option String) (line : String) : Option String :=
  if gv.isNone && !game_root_name.isEmpty && strStartsWith line game_root_name then
    some (pyStrip line)
  else gv

/-- Effect of the main-error capture branch on one scanned line. -/
def meStep (me : Option String) (line : String) : Option String :=
  if me.isNone && strStartsWith line "Unhandled exception" then
    some (replaceFirst line "|" "\n")
  else me

/-! ## Helper lemmas -/

/-- Every element of `dictSet d k v` is an element of `d` or is `(k, v)`. -/
theorem mem_dictSet {d : List (String × String)} {k v : String} {p : String × String}
    (h : p ∈ dictSet d k v) : p ∈ d ∨ p = (k, v) := by
  unfold dictSet at h
  by_cases hc : d.any (fun q => q.1 == k) = true
  · rw [if_pos hc] at h
    rw [List.mem_map] at h
    obtain ⟨q, hq, hqe⟩ := h
    by_cases hk : (q.1 == k) = true
    · right
      rw [← hqe, if_pos hk]
    · left
      rw [← hqe, if_neg hk]
      exact hq
  · rw [if_neg hc] at h
    rw [List.mem_append, List.mem_singleton] at h
    exact h

/-- With a triggered `NOT` signal in the middle, the signal loop returns
exactly the flags accumulated before the `NOT`: everything after the
veto is ignored. -/
theorem processSignals_break (m cs : String) (sig : String) (post : List String)
    (h : isTriggeredNOT cs sig = true) :
    ∀ (pre : List String) (fl : SuspectFlags),
      processSignals m cs (pre ++ sig :: post) fl = processSignals m cs pre fl := by
  unfold isTriggeredNOT at h
  simp only [Bool.and_eq_true, beq_iff_eq] at h
  obtain ⟨⟨hpipe, hmod⟩, hcs⟩ := h
  intro pre
  induction pre with
  | nil =>
    intro fl
    simp only [List.nil_append, processSignals, hpipe, Bool.not_true,
      Bool.false_eq_true, if_false, hmod, hcs]
    rw [if_neg (by decide : ¬ ((("NOT" : String) == "ME-REQ") = true)),
      if_neg (by decide : ¬ ((("NOT" : String) == "ME-OPT") = true)),
      if_pos (by decide : ((("NOT" : String) == "NOT") && true) = true)]
  | cons s rest ih =>
    intro fl
    simp only [List.cons_append, processSignals]
    by_cases h1 : strContains s "|" = true
    · simp only [h1, Bool.not_true, Bool.false_eq_true, if_false]
      by_cases h2 : ((pySplitPair s "|").1 == "ME-REQ") = true
      · simp only [h2, if_true]
        exact ih _
      · simp only [h2, Bool.false_eq_true, if_false]
        by_cases h3 : ((pySplitPair s "|").1 == "ME-OPT") = true
        · simp only [h3, if_true]
          exact ih _
        · simp only [h3, Bool.false_eq_true, if_false]
          by_cases h4 : (((pySplitPair s "|").1 == "NOT") &&
              strContains cs (pySplitPair s "|").2) = true
          · simp only [h4, if_true]
          · simp only [h4, Bool.false_eq_true, if_false]
            by_cases h5 : isDecimalStr (pySplitPair s "|").1 = true
            · simp only [h5, if_true]
              exact ih _
            · simp only [h5, Bool.false_eq_true, if_false]
              exact ih _
    · simp only [h1, Bool.not_false, if_true]
      exact ih _

/-- Without any triggered `NOT` veto, the signal loop acts as four
independent disjunctions over the signal list. -/
theorem processSignals_no_veto (m cs : String) :
    ∀ (l : List String) (fl : SuspectFlags),
      (∀ s ∈ l, isTriggeredNOT cs s = false) →
      processSignals m cs l fl =
        { error_req_found := fl.error_req_found || l.any (mereqMatched m),
          error_opt_found := fl.error_opt_found || l.any (meoptMatched m),
          stack_found := fl.stack_found || l.any (stackSignalMatched cs),
          has_required_item := fl.has_required_item || l.any isMEREQ } := by
  intro l
  induction l with
  | nil => intro fl h; simp [processSignals]
  | cons s rest ih =>
    intro fl h
    have hs : isTriggeredNOT cs s = false := h s (List.mem_cons_self s rest)
    have hrest : ∀ x ∈ rest, isTriggeredNOT cs x = false :=
      fun x hx => h x (List.mem_cons_of_mem s hx)
    simp only [processSignals]
    by_cases h1 : strContains s "|" = true
    · simp only [h1, Bool.not_true, Bool.false_eq_true, if_false]
      by_cases h2 : ((pySplitPair s "|").1 == "ME-REQ") = true
      · have h2e : (pySplitPair s "|").1 = "ME-REQ" := beq_iff_eq.mp h2
        have e2 : meoptMatched m s = false := by
          simp only [meoptMatched, h2e]
          simp
        have e3 : stackSignalMatched cs s = false := by
          simp only [stackSignalMatched, h1, Bool.not_true, Bool.false_eq_true,
            if_false, h2e]
          simp [isDecimalStr]
        have e4 : isMEREQ s = true := by
          simp only [isMEREQ, h1, h2e]
          simp
        simp only [h2, if_true]
        by_cases hm : strContains m (pySplitPair s "|").2 = true
        · have e1 : mereqMatched m s = true := by
            simp only [mereqMatched, e4, hm]
            simp
          rw [if_pos hm, ih _ hrest]
          simp only [List.any_cons, e1, e2, e3, e4, Bool.true_or, Bool.or_true,
            Bool.false_or]
        · have e1 : mereqMatched m s = false := by
            simp only [mereqMatched, e4, Bool.true_and]
            simpa using hm
          rw [if_neg hm, ih _ hrest]
          simp only [List.any_cons, e1, e2, e3, e4, Bool.true_or, Bool.or_true,
            Bool.false_or]
      · have h2e : (pySplitPair s "|").1 ≠ "ME-REQ" := by simpa using h2
        have e4 : isMEREQ s = false := by
          simp only [isMEREQ, h1, Bool.true_and]
          simpa using h2
        have e1 : mereqMatched m s = false := by
          simp only [mereqMatched, e4]
          simp
        simp only [h2, Bool.false_eq_true, if_false]
        by_cases h3 : ((pySplitPair s "|").1 == "ME-OPT") = true
        · have h3e : (pySplitPair s "|").1 = "ME-OPT" := beq_iff_eq.mp h3
          have e3 : stackSignalMatched cs s = false := by
            simp only [stackSignalMatched, h1, Bool.not_true, Bool.false_eq_true,
              if_false, h3e]
            simp [isDecimalStr]
          simp only [h3, if_true]
          by_cases hm : strContains m (pySplitPair s "|").2 = true
          · have e2 : meoptMatched m s = true := by
              simp only [meoptMatched, h1, h3e, hm]
              simp
            rw [if_pos hm, ih _ hrest]
            simp only [List.any_cons, e1, e2, e3, e4, Bool.true_or, Bool.or_true,
              Bool.false_or]
          · have e2 : meoptMatched m s = false := by
              simp only [meoptMatched, h1, h3e]
              simpa using hm
            rw [if_neg hm, ih _ hrest]
            simp only [List.any_cons, e1, e2, e3, e4, Bool.true_or, Bool.or_true,
              Bool.false_or]
        · have h3e : (pySplitPair s "|").1 ≠ "ME-OPT" := by simpa using h3
          have e2 : meoptMatched m s = false := by
            simp only [meoptMatched, h1, Bool.true_and]
            simp [h3e]
          simp only [h3, Bool.false_eq_true, if_false]
          have h4 : (((pySplitPair s "|").1 == "NOT") &&
              strContains cs (pySplitPair s "|").2) = false := by
            rw [isTriggeredNOT, h1] at hs
            simpa using hs
          simp only [h4, Bool.false_eq_true, if_false]
          by_cases h5 : isDecimalStr (pySplitPair s "|").1 = true
          · simp only [h5, if_true]
            by_cases hc : strCount cs (pySplitPair s "|").2 ≥
                pyIntOfDecimal (pySplitPair s "|").1
            · have e3 : stackSignalMatched cs s = true := by
                simp only [stackSignalMatched, h1, Bool.not_true, Bool.false_eq_true,
                  if_false, h5, Bool.true_and, decide_eq_true_eq]
                exact hc
              rw [if_pos hc, ih _ hrest]
              simp only [List.any_cons, e1, e2, e3, e4, Bool.true_or, Bool.or_true,
                Bool.false_or]
            · have e3 : stackSignalMatched cs s = false := by
                simp only [stackSignalMatched, h1, Bool.not_true, Bool.false_eq_true,
                  if_false, h5, Bool.true_and]
                simpa using hc
              rw [if_neg hc, ih _ hrest]
              simp only [List.any_cons, e1, e2, e3, e4, Bool.true_or, Bool.or_true,
                Bool.false_or]
          · have e3 : stackSignalMatched cs s = false := by
              simp only [stackSignalMatched, h1, Bool.not_true, Bool.false_eq_true,
                if_false]
              simp only [Bool.not_eq_true] at h5
              simp [h5]
            simp only [h5, Bool.false_eq_true, if_false]
            rw [ih _ hrest]
            simp only [List.any_cons, e1, e2, e3, e4, Bool.true_or, Bool.or_true,
              Bool.false_or]
    · have h1f : strContains s "|" = false := by simpa using h1
      have e1 : mereqMatched m s = false := by
        simp [mereqMatched, isMEREQ, h1f]
      have e2 : meoptMatched m s = false := by
        simp [meoptMatched, h1f]
      have e4 : isMEREQ s = false := by
        simp [isMEREQ, h1f]
      simp only [h1f, Bool.not_false, if_true]
      by_cases hc : strContains cs s = true
      · have e3 : stackSignalMatched cs s = true := by
          simp only [stackSignalMatched, h1f, Bool.not_false, if_true]
          exact hc
        rw [if_pos hc, ih _ hrest]
        simp only [List.any_cons, e1, e2, e3, e4, Bool.true_or, Bool.or_true,
          Bool.false_or]
      · have e3 : stackSignalMatched cs s = false := by
          simp only [stackSignalMatched, h1f, Bool.not_false, if_true]
          simpa using hc
        rw [if_neg hc, ih _ hrest]
        simp only [List.any_cons, e1, e2, e3, e4, Bool.true_or, Bool.or_true,
          Bool.false_or]

/-- Appending does not destroy a list prefix. -/
theorem isPrefixL_append (a : List Char) :
    ∀ (b t : List Char), isPrefixL a b = true → isPrefixL a (b ++ t) = true := by
  induction a with
  | nil => intro b t _; rfl
  | cons c cs ih =>
    intro b t h
    cases b with
    | nil => simp [isPrefixL] at h
    | cons d ds =>
      simp only [isPrefixL, Bool.and_eq_true] at h
      simp only [List.cons_append, isPrefixL, Bool.and_eq_true]
      exact ⟨h.1, ih ds t h.2⟩

/-- `startswith` is stable under appending to the right. -/
theorem strStartsWith_append_left (x y p : String) (h : strStartsWith x p = true) :
    strStartsWith (x ++ y) p = true := by
  unfold strStartsWith at *
  rw [String.data_append]
  exact isPrefixL_append _ _ _ h

/-- Every list is a prefix of itself. -/
theorem isPrefixL_refl : ∀ (l : List Char), isPrefixL l l = true := by
  intro l
  induction l with
  | nil => rfl
  | cons c cs ih => simp [isPrefixL, ih]

/-- A nonempty character list occurs in itself. -/
theorem containsGo_self : ∀ (l : List Char), l ≠ [] → containsGo l l = true := by
  intro l h
  cases l with
  | nil => exact absurd rfl h
  | cons c cs => simp [containsGo, isPrefixL_refl]

/-- Python `s in s` holds. -/
theorem strContains_self (s : String) : strContains s s = true := by
  unfold strContains
  by_cases he : s.isEmpty = true
  · rw [if_pos he]
  · rw [if_neg he]
    apply containsGo_self
    intro hd
    apply he
    rw [(String.isEmpty_iff s)]
    obtain ⟨d⟩ := s
    simp only at hd
    rw [hd]

/-- Updating an existing key leaves the key sequence unchanged. -/
theorem dictSet_keys_of_mem {d : List (String × String)} {k v : String}
    (h : k ∈ d.map Prod.fst) : (dictSet d k v).map Prod.fst = d.map Prod.fst := by
  unfold dictSet
  have hany : d.any (fun q => q.1 == k) = true := by
    rw [List.any_eq_true]
    rw [List.mem_map] at h
    obtain ⟨p, hp, hpk⟩ := h
    exact ⟨p, hp, by simp [hpk]⟩
  rw [if_pos hany, List.map_map]
  apply List.map_congr_left
  intro p _
  by_cases hk : (p.1 == k) = true
  · simp only [Function.comp_apply, if_pos hk]
    exact (beq_iff_eq.mp hk).symm
  · simp only [Function.comp_apply, if_neg hk]

/-- Looking up the updated key in the in-place update map yields the
new value. -/
theorem lookup_map_update (k v : String) :
    ∀ (d : List (String × String)), k ∈ d.map Prod.fst →
      (d.map (fun q => if q.1 == k then (k, v) else q)).lookup k = some v := by
  intro d
  induction d with
  | nil => intro h; simp at h
  | cons p rest ih =>
    intro h
    simp only [List.map_cons]
    by_cases hpk : (p.1 == k) = true
    · rw [if_pos hpk]
      simp [List.lookup]
    · rw [if_neg hpk]
      have hkrest : k ∈ rest.map Prod.fst := by
        rw [List.mem_map] at h ⊢
        obtain ⟨q, hq, hqk⟩ := h
        rcases List.mem_cons.mp hq with hq1 | hq2
        · exfalso
          apply hpk
          rw [hq1] at hqk
          simp [hqk]
        · exact ⟨q, hq2, hqk⟩
      have hkp : (k == p.1) = false := by
        rw [beq_eq_false_iff_ne]
        intro he
        exact hpk (by simp [he])
      simp only [List.lookup]
      rw [hkp]
      exact ih hkrest

/-- Updating an existing key makes lookup return the new value. -/
theorem dictSet_lookup_self {d : List (String × String)} {k v : String}
    (h : k ∈ d.map Prod.fst) : (dictSet d k v).lookup k = some v := by
  have hany : d.any (fun q => q.1 == k) = true := by
    rw [List.any_eq_true]
    rw [List.mem_map] at h
    obtain ⟨p, hp, hpk⟩ := h
    exact ⟨p, hp, by simp [hpk]⟩
  unfold dictSet
  rw [if_pos hany]
  exact lookup_map_update k v d h

/-! ## Claim C2 -/

/-- Claim C2 (counterexample): a stack rule with two `ME-REQ` signals of
which only the first has its text in the main error is still reported
as matching, refuting the claim that every `ME-REQ` text must be a
substring of the main error. -/
theorem c2_counterexample :
    suspectStackMatch "AAA" "" ["ME-REQ|AAA", "ME-REQ|BBB"] = true ∧
      strContains "AAA" "BBB" = false := by
  constructor
  · decide
  · decide

/-- Claim C2 (amended): a stack rule carrying at least one `ME-REQ`
signal and no triggered `NOT` veto is reported as matching iff at least
one (not every) of its `ME-REQ` texts is a substring of the main error,
regardless of the outcomes of its bare, `ME-OPT` and count signals. -/
theorem c2_mereq_rule_matches_iff_some_mereq_text_in_mainerror
    (m cs : String) (l : List String)
    (h1 : l.any isMEREQ = true)
    (h2 : ∀ s ∈ l, isTriggeredNOT cs s = false) :
    suspectStackMatch m cs l = l.any (mereqMatched m) := by
  unfold suspectStackMatch
  rw [processSignals_no_veto m cs l _ h2]
  simp [h1]

/-- Claim C2 (witness): the amended theorem applied to a concrete gated
rule whose other signal matches the call stack. -/
theorem c2_witness :
    suspectStackMatch "ZAAAZ" "BBB BBB BBB" ["ME-REQ|AAA", "3|BBB"] =
      ["ME-REQ|AAA", "3|BBB"].any (mereqMatched "ZAAAZ") :=
  c2_mereq_rule_matches_iff_some_mereq_text_in_mainerror _ _ _ (by decide) (by decide)

/-! ## Claim C3 -/

/-- Claim C3 (counterexample): a rule whose `ME-REQ` signal precedes a
triggered `NOT` veto is still reported as matching, refuting the claim
that a triggered `NOT` vetoes the rule regardless of its position. -/
theorem c3_counterexample :
    suspectStackMatch "AAA" "BBB" ["ME-REQ|AAA", "NOT|BBB"] = true ∧
      isTriggeredNOT "BBB" "NOT|BBB" = true := by
  constructor
  · decide
  · decide

/-- Claim C3 (amended): a triggered `NOT` signal stops evaluation at its
own position, so the rule is reported exactly as if its signal list
ended just before the `NOT`; in particular a rule whose triggered `NOT`
comes first is reported as non-matching. -/
theorem c3_triggered_not_ignores_only_later_signals
    (m cs : String) (pre post : List String) (sig : String)
    (h : isTriggeredNOT cs sig = true) :
    suspectStackMatch m cs (pre ++ sig :: post) = suspectStackMatch m cs pre := by
  unfold suspectStackMatch
  rw [processSignals_break m cs sig post h pre]

/-- Claim C3 (witness): the amended theorem applied to the
specification's own veto example. -/
theorem c3_witness :
    suspectStackMatch "A" "SafeModule.dll R R R R R"
        ([] ++ "NOT|SafeModule.dll" :: ["3|R"]) =
      suspectStackMatch "A" "SafeModule.dll R R R R R" [] :=
  c3_triggered_not_ignores_only_later_signals _ _ _ _ _ (by decide)

/-! ## Claim C9 -/

/-- Claim C9: the AllModules vulkan scan is not total: a line containing
`"vulkan"` but no space makes `elem_parts[1] = "DLL"` raise
`IndexError`, aborting plugin-table construction. -/
theorem c9_vulkan_line_without_space_raises :
    get_crash_log_plugins "Fallout4" ⟨["[00] Fallout4.esm"], [], ["vulkan-1.dll"]⟩ none [] =
      Except.error "IndexError: list assignment index out of range" := by
  rfl

/-! ## Claim C4 -/

/-- Claim C4 (counterexample): with a supplied load-order override but a
Plugins segment that does not reference the game's primary master file,
the table is empty rather than populated from the override: the
game-ESM presence check is not skipped. -/
theorem c4_counterexample :
    get_crash_log_plugins "Fallout4" ⟨["[00] SomeMod.esp"], [], []⟩
        (some ["# header", "PluginA.esp"]) [] = Except.ok [] ∧
      (Except.ok ([] : List (String × String)) : Except String (List (String × String))) ≠
        Except.ok [("PluginA.esp", "LO")] := by
  constructor
  · rfl
  · simp

/-- Entries produced by the load-order fold are tagged `LO` with names
from the processed list. -/
theorem loFold_entries (S : List String) :
    ∀ (L : List String) (acc : List (String × String)),
      (∀ e ∈ L, e ∈ S) → (∀ p ∈ acc, p.2 = "LO" ∧ p.1 ∈ S) →
      ∀ p ∈ L.foldl (fun acc elem =>
          if acc.all (fun item => !strContains item.1 elem) then dictSet acc elem "LO"
          else acc) acc,
        p.2 = "LO" ∧ p.1 ∈ S := by
  intro L
  induction L with
  | nil => intro acc _ hacc; simpa using hacc
  | cons e rest ih =>
    intro acc hL hacc
    simp only [List.foldl_cons]
    apply ih
    · intro x hx
      exact hL x (List.mem_cons_of_mem _ hx)
    · intro p hp
      by_cases hc : (acc.all fun item => !strContains item.1 e) = true
      · rw [if_pos hc] at hp
        rcases mem_dictSet hp with h1 | h1
        · exact hacc p h1
        · constructor
          · rw [h1]
          · rw [h1]
            exact hL e (List.mem_cons_self _ _)
      · rw [if_neg hc] at hp
        exact hacc p hp

/-- Claim C4 (amended): the override fully replaces plugin-table
construction only once the game-ESM presence check has passed; in that
case the table comes entirely from the override's names (header line
skipped) tagged `LO`, and the XSE, AllModules and ignore-list inputs
are never consulted. -/
theorem c4_override_table_after_esm_check
    (game : String) (pl xs am lo ig : List String)
    (h : pl.any (fun e => strContains e (game ++ ".esm")) = true) :
    ∃ t, get_crash_log_plugins game ⟨pl, xs, am⟩ (some lo) ig = Except.ok t ∧
      (∀ p ∈ t, p.2 = "LO" ∧ p.1 ∈ lo.drop 1) ∧
      (∀ xs2 am2 ig2 : List String,
        get_crash_log_plugins game ⟨pl, xs2, am2⟩ (some lo) ig2 = Except.ok t) := by
  refine ⟨(lo.drop 1).foldl (fun acc elem =>
      if acc.all (fun item => !strContains item.1 elem) then dictSet acc elem "LO"
      else acc) [], ?_, ?_, ?_⟩
  · simp [get_crash_log_plugins, h]
  · exact loFold_entries (lo.drop 1) (lo.drop 1) [] (fun e he => he) (by simp)
  · intro xs2 am2 ig2
    simp [get_crash_log_plugins, h]

/-- Claim C4 (witness): the amended theorem applied to a log whose
Plugins segment does reference the game master, with a two-line
override file. -/
theorem c4_witness :
    ∃ t, get_crash_log_plugins "Fallout4" ⟨["[00] Fallout4.esm"], [], []⟩
        (some ["# header", "PluginA.esp"]) [] = Except.ok t ∧
      (∀ p ∈ t, p.2 = "LO" ∧ p.1 ∈ ["# header", "PluginA.esp"].drop 1) ∧
      (∀ xs2 am2 ig2 : List String,
        get_crash_log_plugins "Fallout4" ⟨["[00] Fallout4.esm"], xs2, am2⟩
          (some ["# header", "PluginA.esp"]) ig2 = Except.ok t) :=
  c4_override_table_after_esm_check "Fallout4" _ _ _ _ _ (by decide)

/-! ## Claim C5 -/

/-- Claim C5 (counterexample): a Plugins-segment line duplicating an
already-present plugin name is not ignored: it overwrites the stored
tag (here `"01"` becomes `"???"`), refuting first-occurrence-wins. -/
theorem c5_counterexample :
    get_crash_log_plugins "Fallout4"
        ⟨["[00] Fallout4.esm", "[01] Foo.esp", "[02] Foo.esp"], [], []⟩ none [] =
      Except.ok [("Fallout4.esm", "00"), ("Foo.esp", "???")] ∧
    List.foldl pluginLineStep [] ["[00] Fallout4.esm", "[01] Foo.esp"] =
      [("Fallout4.esm", "00"), ("Foo.esp", "01")] := by
  constructor
  · rfl
  · rfl

/-- Claim C5 (amended): a later Plugins-segment line whose parsed name
is already a key of the table does not add or reorder entries, but it
does overwrite that entry's tag: with `DLL` when the name contains
`"dll"`, otherwise with `"???"`. -/
theorem c5_duplicate_line_overwrites_tag
    (acc : List (String × String)) (elem fid name : String)
    (hm : pluginSearchMatch elem = some (fid, name))
    (hmem : name ∈ acc.map Prod.fst) :
    (pluginLineStep acc elem).map Prod.fst = acc.map Prod.fst ∧
      (pluginLineStep acc elem).lookup name =
        some (if strContains (strLower name) "dll" = true then "DLL" else "???") := by
  have hall : (acc.all fun item => !strContains item.1 name) = false := by
    rw [List.mem_map] at hmem
    obtain ⟨p, hp, hpk⟩ := hmem
    rw [List.all_eq_false]
    refine ⟨p, hp, ?_⟩
    rw [hpk, strContains_self]
    simp
  unfold pluginLineStep
  rw [hm]
  simp only [hall, Bool.false_eq_true, if_false]
  by_cases hdll : strContains (strLower name) "dll" = true
  · have hne : name ≠ "" := by
      intro he
      rw [he] at hdll
      exact absurd hdll (by decide)
    have hemp : name.isEmpty = false := by
      rw [Bool.eq_false_iff]
      intro he
      exact hne ((String.isEmpty_iff name).mp he)
    have hcond : (!name.isEmpty && strContains (strLower name) "dll") = true := by
      rw [hemp, hdll]
      rfl
    rw [if_pos hcond, if_pos hdll]
    exact ⟨dictSet_keys_of_mem hmem, dictSet_lookup_self hmem⟩
  · have hdf : strContains (strLower name) "dll" = false := by
      simpa using hdll
    have hcond : (!name.isEmpty && strContains (strLower name) "dll") = false := by
      rw [hdf, Bool.and_false]
    rw [hcond]
    simp only [Bool.false_eq_true, if_false]
    rw [if_neg hdll]
    exact ⟨dictSet_keys_of_mem hmem, dictSet_lookup_self hmem⟩

/-- Claim C5 (witness): the amended theorem applied to a duplicate
`Foo.esp` line over a table already holding `Foo.esp` with tag `"01"`. -/
theorem c5_witness :
    (pluginLineStep [("Foo.esp", "01")] "[02] Foo.esp").map Prod.fst =
        [("Foo.esp", "01")].map Prod.fst ∧
      (pluginLineStep [("Foo.esp", "01")] "[02] Foo.esp").lookup "Foo.esp" =
        some (if strContains (strLower "Foo.esp") "dll" = true then "DLL" else "???") :=
  c5_duplicate_line_overwrites_tag [("Foo.esp", "01")] "[02] Foo.esp" "02" "Foo.esp"
    (by rfl) (by decide)

/-! ## Claim C6 -/

/-- Claim C6 (counterexample): in the specification's end-to-end
scenario the second plugin is `OtherWeapon.esl`, which the key fragment
`otherweapon.esp` does not substring-match, so the double-key detector
emits nothing instead of emitting the warning once. -/
theorem c6_counterexample :
    get_crash_log_plugins "Fallout4"
        ⟨["[00] Fallout4.esm", "[07] MyWeaponMod.esp", "[08] OtherWeapon.esl"], [], []⟩
        none [] =
      Except.ok [("Fallout4.esm", "00"), ("MyWeaponMod.esp", "07"), ("OtherWeapon.esl", "08")] ∧
    detect_mods_double
        [("myweaponmod.esp | otherweapon.esp", "Warning: incompatible weapon mods")]
        [("Fallout4.esm", "00"), ("MyWeaponMod.esp", "07"), ("OtherWeapon.esl", "08")] =
      Except.ok ([], false) := by
  constructor
  · rfl
  · rfl

/-- Claim C6 (amended): the scenario behaves as claimed once the second
plugin's extension matches the key fragment: with `OtherWeapon.esp`
present the double-key detector emits the paired warning exactly once. -/
theorem c6_esp_plugin_warns_exactly_once :
    get_crash_log_plugins "Fallout4"
        ⟨["[00] Fallout4.esm", "[07] MyWeaponMod.esp", "[08] OtherWeapon.esp"], [], []⟩
        none [] =
      Except.ok [("Fallout4.esm", "00"), ("MyWeaponMod.esp", "07"), ("OtherWeapon.esp", "08")] ∧
    detect_mods_double
        [("myweaponmod.esp | otherweapon.esp", "Warning: incompatible weapon mods")]
        [("Fallout4.esm", "00"), ("MyWeaponMod.esp", "07"), ("OtherWeapon.esp", "08")] =
      Except.ok (["[!] CAUTION : ", "Warning: incompatible weapon mods"], true) ∧
    List.count "Warning: incompatible weapon mods"
        ["[!] CAUTION : ", "Warning: incompatible weapon mods"] = 1 := by
  refine ⟨rfl, rfl, rfl⟩

/-! ## Claim C8 -/

/-- Claim C8 (counterexample): when neither AMD nor Nvidia is
identified, `gpu_rival` is `None`, and the important-mod detector then
behaves differently from the `nvidia`-rival branch: the not-installed
warning is suppressed instead of emitted. -/
theorem c8_counterexample :
    detect_mods_important [("somemod | Some Mod", "Install this patch now")]
        [("Other.esp", "01")] (mod_compat_gpu_rival false false) = Except.ok [] ∧
    detect_mods_important [("somemod | Some Mod", "Install this patch now")]
        [("Other.esp", "01")] (some "nvidia") =
      Except.ok ["❌ Some Mod is not installed!\n", "Install this patch now", "\n"] := by
  constructor
  · rfl
  · rfl

/-- With `gpu_rival = None` a rule can only produce the plain
installed-confirmation line or nothing. -/
theorem importantRule_none_out (plugins : List String) (rule : String × String)
    (out : List String) (h : importantRule none plugins rule = Except.ok out) :
    out = [] ∨ ∃ disp, out = ["✔️ " ++ disp ++ " is installed!\n\n"] := by
  unfold importantRule at h
  simp only [Option.getD_none, ne_eq, not_true_eq_false, false_and, if_false] at h
  by_cases hf : (plugins.any fun p =>
      strContains (strLower p) (strLower ((pySplit1 rule.1 " | ").headD ""))) = true
  · rw [if_pos hf] at h
    cases hsplit : (pySplit1 rule.1 " | ").get? 1 with
    | none =>
      rw [hsplit] at h
      cases h
    | some disp =>
      rw [hsplit] at h
      right
      refine ⟨disp, ?_⟩
      injection h with h2
      exact h2.symm
  · rw [if_neg hf] at h
    left
    injection h with h2
    exact h2.symm

/-- With `gpu_rival = None` the important-mod loop only accumulates
installed-confirmation lines. -/
theorem detectImportantLoop_none_all_checkmark (plugins : List String) :
    ∀ (rules : List (String × String)) (acc report : List String),
      (∀ line ∈ acc, strStartsWith line "✔️" = true) →
      detectImportantLoop plugins none rules acc = Except.ok report →
      ∀ line ∈ report, strStartsWith line "✔️" = true := by
  intro rules
  induction rules with
  | nil =>
    intro acc report hacc h
    unfold detectImportantLoop at h
    cases h
    exact hacc
  | cons rule rest ih =>
    intro acc report hacc h
    unfold detectImportantLoop at h
    cases hr : importantRule none plugins rule with
    | error e => rw [hr] at h; cases h
    | ok out =>
      rw [hr] at h
      apply ih (acc ++ out) report _ h
      intro line hline
      rcases List.mem_append.mp hline with h1 | h1
      · exact hacc line h1
      · rcases importantRule_none_out plugins rule out hr with ho | ⟨disp, ho⟩
        · rw [ho] at h1
          simp at h1
        · rw [ho] at h1
          rw [List.mem_singleton] at h1
          rw [h1]
          exact strStartsWith_append_left _ _ _
            (strStartsWith_append_left _ _ _ (by decide))

/-- Claim C8 (amended): with neither AMD nor Nvidia identified,
`gpu_rival` is `None` — not the Nvidia-rival branch — and the
important-mod detector suppresses every vendor caution and every
not-installed warning: any report it produces consists solely of plain
installed confirmations. -/
theorem c8_unknown_gpu_disables_vendor_warnings
    (yaml_dict plugins : List (String × String)) (report : List String)
    (h : detect_mods_important yaml_dict plugins (mod_compat_gpu_rival false false) =
      Except.ok report) :
    ∀ line ∈ report, strStartsWith line "✔️" = true := by
  unfold detect_mods_important at h
  have : mod_compat_gpu_rival false false = none := rfl
  rw [this] at h
  exact detectImportantLoop_none_all_checkmark _ _ _ _ (by simp) h

/-- Claim C8 (witness): the amended theorem applied to an
unknown-vendor system with one installed core mod. -/
theorem c8_witness :
    strStartsWith "✔️ Some Mod is installed!\n\n" "✔️" = true :=
  c8_unknown_gpu_disables_vendor_warnings [("somemod | Some Mod", "warn text")]
    [("SomeMod.esp", "07")] ["✔️ Some Mod is installed!\n\n"] (by rfl)
    "✔️ Some Mod is installed!\n\n" (by simp)

/-! ## Claim C10 -/

/-- Claim C10: in single- and double-key mod detection a matched rule
raises `ValueError` precisely when its warning text is empty; with a
non-empty warning the warning is emitted and no error is raised for
that rule. -/
theorem c10_matched_rule_empty_warning_raises
    (k w : String) (plugins : List (String × String)) (pr : String × String)
    (hm : (lowerKeys plugins).find? (fun p => strContains p.1 (strLower k)) = some pr)
    (k2 w2 : String) (plugins2 : List (String × String))
    (hd : doubleScan (pySplit1 (strLower k2) " | ") (dictKeys (lowerKeys plugins2))
      false false = Except.ok (true, true)) :
    (w = "" → detect_mods_single [(k, w)] plugins =
      Except.error ("ERROR: " ++ strLower k ++ " has no warning in the database!")) ∧
    (w ≠ "" → detect_mods_single [(k, w)] plugins =
      Except.ok (["[!] FOUND : [" ++ pr.2 ++ "] ", w], true)) ∧
    (w2 = "" → detect_mods_double [(k2, w2)] plugins2 =
      Except.error ("ERROR: " ++ strLower k2 ++ " has no warning in the database!")) ∧
    (w2 ≠ "" → detect_mods_double [(k2, w2)] plugins2 =
      Except.ok (["[!] CAUTION : ", w2], true)) := by
  have hlk : lowerKeys [(k, w)] = [(strLower k, w)] := by
    simp [lowerKeys, dictSet]
  have hlk2 : lowerKeys [(k2, w2)] = [(strLower k2, w2)] := by
    simp [lowerKeys, dictSet]
  refine ⟨?_, ?_, ?_, ?_⟩
  · intro hw
    unfold detect_mods_single
    rw [hlk]
    unfold detectSingleLoop
    simp only [hm]
    rw [if_pos hw]
  · intro hw
    unfold detect_mods_single
    rw [hlk]
    unfold detectSingleLoop
    simp only [hm]
    rw [if_neg hw]
    rfl
  · intro hw
    unfold detect_mods_double
    rw [hlk2]
    unfold detectDoubleLoop
    simp only [hd]
    simp only [Bool.and_self, if_true]
    rw [if_pos hw]
  · intro hw
    unfold detect_mods_double
    rw [hlk2]
    unfold detectDoubleLoop
    simp only [hd]
    simp only [Bool.and_self, if_true]
    rw [if_neg hw]
    rfl

/-- Claim C10 (witness): the contract applied to one matched single-key
rule and one matched double-key rule with non-empty and empty warnings
exercised. -/
theorem c10_witness :
    (("" : String) = "" → detect_mods_single [("Foo", "")] [("Foo.esp", "01")] =
      Except.error ("ERROR: " ++ strLower "Foo" ++ " has no warning in the database!")) ∧
    (("" : String) ≠ "" → detect_mods_single [("Foo", "")] [("Foo.esp", "01")] =
      Except.ok (["[!] FOUND : [" ++ ("foo.esp", "01").2 ++ "] ", ""], true)) ∧
    (("warn b" : String) = "" → detect_mods_double [("a | b", "warn b")]
        [("a.esp", "01"), ("b.esp", "02")] =
      Except.error ("ERROR: " ++ strLower "a | b" ++ " has no warning in the database!")) ∧
    (("warn b" : String) ≠ "" → detect_mods_double [("a | b", "warn b")]
        [("a.esp", "01"), ("b.esp", "02")] =
      Except.ok (["[!] CAUTION : ", "warn b"], true)) :=
  c10_matched_rule_empty_warning_raises "Foo" "" [("Foo.esp", "01")] ("foo.esp", "01")
    (by rfl) "a | b" "warn b" [("a.esp", "01"), ("b.esp", "02")] (by rfl)

/-! ## Loop lemmas for `find_segments` -/

/-- One-line decomposition of the cumulative game-version capture. -/
theorem gvUpdate_cons (gr : String) (gv : Option String) (x : String) (X : List String) :
    gvUpdate gr gv (x :: X) = gvUpdate gr (gvStep gr gv x) X := by
  cases gv with
  | some g => simp [gvUpdate, gvStep]
  | none =>
    by_cases hge : gr.isEmpty = true
    · simp [gvUpdate, gvStep, hge]
    · by_cases hsw : strStartsWith x gr = true
      · simp [gvUpdate, gvStep, hge, hsw]
      · simp [gvUpdate, gvStep, hge, hsw]

/-- One-line decomposition of the cumulative main-error capture. -/
theorem meUpdate_cons (me : Option String) (x : String) (X : List String) :
    meUpdate me (x :: X) = meUpdate (meStep me x) X := by
  cases me with
  | some g => simp [meUpdate, meStep]
  | none =>
    by_cases hsw : strStartsWith x "Unhandled exception" = true
    · simp [meUpdate, meStep, hsw]
    · simp [meUpdate, meStep, hsw]

/-- The cumulative game-version capture over an empty block. -/
theorem gvUpdate_nil (gr : String) (gv : Option String) : gvUpdate gr gv [] = gv := by
  cases gv with
  | some g => simp [gvUpdate]
  | none => by_cases hge : gr.isEmpty = true <;> simp [gvUpdate, hge]

/-- The cumulative main-error capture over an empty block. -/
theorem meUpdate_nil (me : Option String) : meUpdate me [] = me := by
  cases me with
  | some g => simp [meUpdate]
  | none => simp [meUpdate]

/-- Block concatenation for the cumulative game-version capture. -/
theorem gvUpdate_append (gr : String) (gv : Option String) (X Y : List String) :
    gvUpdate gr (gvUpdate gr gv X) Y = gvUpdate gr gv (X ++ Y) := by
  cases gv with
  | some g => simp [gvUpdate]
  | none =>
    by_cases hge : gr.isEmpty = true
    · simp [gvUpdate, hge]
    · simp only [gvUpdate, hge, if_false, Option.none_orElse, List.find?_append]
      cases hf : X.find? (fun l => strStartsWith l gr) with
      | none => simp
      | some l => simp

/-- Block concatenation for the cumulative main-error capture. -/
theorem meUpdate_append (me : Option String) (X Y : List String) :
    meUpdate (meUpdate me X) Y = meUpdate me (X ++ Y) := by
  cases me with
  | some g => simp [meUpdate]
  | none =>
    simp only [meUpdate, Option.none_orElse, List.find?_append]
    cases hf : X.find? (fun l => strStartsWith l "Unhandled exception") with
    | none => simp
    | some l => simp

/-- The one-line capture steps as single-block updates. -/
theorem gvStep_eq_update (gr : String) (gv : Option String) (x : String) :
    gvStep gr gv x = gvUpdate gr gv [x] := by
  rw [gvUpdate_cons, gvUpdate_nil]

/-- The one-line main-error step as a single-block update. -/
theorem meStep_eq_update (me : Option String) (x : String) :
    meStep me x = meUpdate me [x] := by
  rw [meUpdate_cons, meUpdate_nil]

/-- Reading the element just after a known prefix. -/
theorem getD_append_cons (A B : List String) (x : String) :
    (A ++ x :: B).getD A.length "" = x := by
  induction A with
  | nil => rfl
  | cons a as ih => simpa [List.getD] using ih

/-- Reading one element inside a known middle block. -/
theorem getD_append_block (A X R : List String) (k : Nat) (hk : k < X.length) :
    (A ++ X ++ R).getD (A.length + k) "" = X.getD k "" := by
  induction A with
  | nil =>
    simp only [List.nil_append, List.length_nil, Nat.zero_add]
    induction X generalizing k with
    | nil => simp at hk
    | cons x xs ih =>
      cases k with
      | zero => rfl
      | succ k2 =>
        simp only [List.cons_append, List.getD]
        simpa using ih k2 (by simpa using hk)
  | cons a as ih =>
    simp only [List.cons_append, List.length_cons]
    rw [show as.length + 1 + k = (as.length + k) + 1 from by omega]
    simpa [List.getD] using ih

/-- While the crashgen field is unset, a line that does not start with
the crashgen name only feeds the game-version capture and advances. -/
theorem fsLoop_step_nocg (C : List String) (bs : List (String × String)) (gr cn : String)
    (i : Nat) (hlt : i < C.length) (x : String) (hx : C.getD i "" = x)
    (hcn : strStartsWith x cn = false)
    (segIdx idxStart : Nat) (segs : List (List String)) (gv me : Option String)
    (nb : String) (f : Nat) :
    findSegmentsLoop C bs gr cn (f + 1) ⟨i, false, segIdx, idxStart, segs, gv, none, me, nb⟩ =
      findSegmentsLoop C bs gr cn f
        ⟨i + 1, false, segIdx, idxStart, segs, gvStep gr gv x, none, me, nb⟩ := by
  simp only [findSegmentsLoop]
  rw [if_pos (show (⟨i, false, segIdx, idxStart, segs, gv, none, me, nb⟩ :
    FSState).current_index < C.length from hlt)]
  rw [hx]
  by_cases hgv : (gv.isNone && !gr.isEmpty && strStartsWith x gr) = true
  · rw [if_pos hgv]
    rw [if_pos (show (Option.isNone (none : Option String)) = true from rfl)]
    rw [if_neg (show ¬ (strStartsWith x cn = true) from by simp [hcn])]
    rw [show gvStep gr gv x = some (pyStrip x) from by rw [gvStep, if_pos hgv]]
    rfl
  · rw [if_neg hgv]
    rw [if_pos (show (Option.isNone (none : Option String)) = true from rfl)]
    rw [if_neg (show ¬ (strStartsWith x cn = true) from by simp [hcn])]
    rw [show gvStep gr gv x = gv from by rw [gvStep, if_neg hgv]]
    rfl

/-- The loop bottom without the end-of-data tail append. -/
theorem fsAdvance_no_append (C : List String) (st : FSState)
    (h : (st.collect && ((st.current_index + 1) == C.length)) = false) :
    fsAdvance C st = { st with current_index := st.current_index + 1 } := by
  unfold fsAdvance
  have h2 : ¬ ((({ st with current_index := st.current_index + 1 } : FSState).collect &&
      (({ st with current_index := st.current_index + 1 } : FSState).current_index ==
        C.length)) = true) := by
    simpa using h
  rw [if_neg h2]

/-- While the crashgen field is unset, the line that first starts with
the crashgen name fills it and advances. -/
theorem fsLoop_step_setcg (C : List String) (bs : List (String × String)) (gr cn : String)
    (i : Nat) (hlt : i < C.length) (x : String) (hx : C.getD i "" = x)
    (hcn : strStartsWith x cn = true)
    (segIdx idxStart : Nat) (segs : List (List String)) (gv me : Option String)
    (nb : String) (f : Nat) :
    findSegmentsLoop C bs gr cn (f + 1) ⟨i, false, segIdx, idxStart, segs, gv, none, me, nb⟩ =
      findSegmentsLoop C bs gr cn f
        ⟨i + 1, false, segIdx, idxStart, segs, gvStep gr gv x, some (pyStrip x), me, nb⟩ := by
  simp only [findSegmentsLoop]
  rw [if_pos (show (⟨i, false, segIdx, idxStart, segs, gv, none, me, nb⟩ :
    FSState).current_index < C.length from hlt)]
  rw [hx]
  by_cases hgv : (gv.isNone && !gr.isEmpty && strStartsWith x gr) = true
  · rw [if_pos hgv]
    rw [if_pos (show (Option.isNone (none : Option String)) = true from rfl)]
    rw [if_pos hcn]
    rw [show gvStep gr gv x = some (pyStrip x) from by rw [gvStep, if_pos hgv]]
    rfl
  · rw [if_neg hgv]
    rw [if_pos (show (Option.isNone (none : Option String)) = true from rfl)]
    rw [if_pos hcn]
    rw [show gvStep gr gv x = gv from by rw [gvStep, if_neg hgv]]
    rfl

/-- With the crashgen field set, a line that does not start with the
current boundary feeds the header captures and advances. -/
theorem fsLoop_step_scan (C : List String) (bs : List (String × String)) (gr cn : String)
    (i : Nat) (hlt : i < C.length) (x : String) (hx : C.getD i "" = x)
    (coll : Bool) (nb : String) (hnb : strStartsWith x nb = false)
    (hadv : (coll && ((i + 1) == C.length)) = false)
    (segIdx idxStart : Nat) (segs : List (List String)) (gv me : Option String)
    (c : String) (f : Nat) :
    findSegmentsLoop C bs gr cn (f + 1)
        ⟨i, coll, segIdx, idxStart, segs, gv, some c, me, nb⟩ =
      findSegmentsLoop C bs gr cn f
        ⟨i + 1, coll, segIdx, idxStart, segs, gvStep gr gv x, some c, meStep me x, nb⟩ := by
  simp only [findSegmentsLoop]
  rw [if_pos (show (⟨i, coll, segIdx, idxStart, segs, gv, some c, me, nb⟩ :
    FSState).current_index < C.length from hlt)]
  rw [hx]
  by_cases hgv : (gv.isNone && !gr.isEmpty && strStartsWith x gr) = true
  case pos =>
    rw [if_pos hgv]
    rw [if_neg (show ¬ ((Option.isNone (some c)) = true) from by simp)]
    rw [show gvStep gr gv x = some (pyStrip x) from by rw [gvStep, if_pos hgv]]
    by_cases hme : (me.isNone && strStartsWith x "Unhandled exception") = true
    · rw [if_pos hme]
      rw [show meStep me x = some (replaceFirst x "|" "\n") from by rw [meStep, if_pos hme]]
      rw [fsAdvance_no_append C _ (by simpa using hadv)]
    · rw [if_neg hme]
      rw [if_neg (show ¬ (strStartsWith x nb = true) from by simp [hnb])]
      rw [show meStep me x = me from by rw [meStep, if_neg hme]]
      rw [fsAdvance_no_append C _ (by simpa using hadv)]
  case neg =>
    rw [if_neg hgv]
    rw [if_neg (show ¬ ((Option.isNone (some c)) = true) from by simp)]
    rw [show gvStep gr gv x = gv from by rw [gvStep, if_neg hgv]]
    by_cases hme : (me.isNone && strStartsWith x "Unhandled exception") = true
    · rw [if_pos hme]
      rw [show meStep me x = some (replaceFirst x "|" "\n") from by rw [meStep, if_pos hme]]
      rw [fsAdvance_no_append C _ (by simpa using hadv)]
    · rw [if_neg hme]
      rw [if_neg (show ¬ (strStartsWith x nb = true) from by simp [hnb])]
      rw [show meStep me x = me from by rw [meStep, if_neg hme]]
      rw [fsAdvance_no_append C _ (by simpa using hadv)]

/-- With the crashgen field set and not collecting, a start-marker line
opens a segment pair whose end marker is not the sentinel. -/
theorem fsLoop_step_open (C : List String) (bs : List (String × String)) (gr cn : String)
    (i : Nat) (hlt : i < C.length) (x : String) (hx : C.getD i "" = x)
    (nb : String) (hnb : strStartsWith x nb = true)
    (hxu : strStartsWith x "Unhandled exception" = false)
    (segIdx : Nat) (hE : ((boundaryAt bs segIdx true) == "EOF") = false)
    (hadv : ((i + 1) == C.length) = false)
    (idxStart : Nat) (segs : List (List String)) (gv me : Option String)
    (c : String) (f : Nat) :
    findSegmentsLoop C bs gr cn (f + 1)
        ⟨i, false, segIdx, idxStart, segs, gv, some c, me, nb⟩ =
      findSegmentsLoop C bs gr cn f
        ⟨i + 1, true, segIdx, i + 1, segs, gvStep gr gv x, some c, me,
          boundaryAt bs segIdx true⟩ := by
  simp only [findSegmentsLoop]
  rw [if_pos (show (⟨i, false, segIdx, idxStart, segs, gv, some c, me, nb⟩ :
    FSState).current_index < C.length from hlt)]
  rw [hx]
  by_cases hgv : (gv.isNone && !gr.isEmpty && strStartsWith x gr) = true
  case pos =>
    rw [if_pos hgv]
    rw [if_neg (show ¬ ((Option.isNone (some c)) = true) from by simp)]
    rw [if_neg (show ¬ ((Option.isNone me && strStartsWith x "Unhandled exception") = true)
      from by simp [hxu])]
    rw [if_pos hnb]
    rw [if_neg (show ¬ (false = true) from by simp)]
    rw [if_pos (show C.length > i from hlt)]
    rw [if_neg (show ¬ ((boundaryAt bs segIdx true == "EOF") = true) from by simp [hE])]
    rw [show gvStep gr gv x = some (pyStrip x) from by rw [gvStep, if_pos hgv]]
    rw [fsAdvance_no_append C _ (by simpa using hadv)]
  case neg =>
    rw [if_neg hgv]
    rw [if_neg (show ¬ ((Option.isNone (some c)) = true) from by simp)]
    rw [if_neg (show ¬ ((Option.isNone me && strStartsWith x "Unhandled exception") = true)
      from by simp [hxu])]
    rw [if_pos hnb]
    rw [if_neg (show ¬ (false = true) from by simp)]
    rw [if_pos (show C.length > i from hlt)]
    rw [if_neg (show ¬ ((boundaryAt bs segIdx true == "EOF") = true) from by simp [hE])]
    rw [show gvStep gr gv x = gv from by rw [gvStep, if_neg hgv]]
    rw [fsAdvance_no_append C _ (by simpa using hadv)]

/-- Opening the last boundary pair: the sentinel end marker makes the
loop append the whole remaining tail and stop. -/
theorem fsLoop_step_openEOF (C : List String) (bs : List (String × String)) (gr cn : String)
    (i : Nat) (hlt : i < C.length) (x : String) (hx : C.getD i "" = x)
    (nb : String) (hnb : strStartsWith x nb = true)
    (hxu : strStartsWith x "Unhandled exception" = false)
    (segIdx : Nat) (hE : ((boundaryAt bs segIdx true) == "EOF") = true)
    (idxStart : Nat) (segs : List (List String)) (gv me : Option String)
    (c : String) (f : Nat) :
    findSegmentsLoop C bs gr cn (f + 1)
        ⟨i, false, segIdx, idxStart, segs, gv, some c, me, nb⟩ =
      ⟨i, true, segIdx, i + 1, segs ++ [C.drop (i + 1)], gvStep gr gv x, some c, me,
        boundaryAt bs segIdx true⟩ := by
  simp only [findSegmentsLoop]
  rw [if_pos (show (⟨i, false, segIdx, idxStart, segs, gv, some c, me, nb⟩ :
    FSState).current_index < C.length from hlt)]
  rw [hx]
  by_cases hgv : (gv.isNone && !gr.isEmpty && strStartsWith x gr) = true
  case pos =>
    rw [if_pos hgv]
    rw [if_neg (show ¬ ((Option.isNone (some c)) = true) from by simp)]
    rw [if_neg (show ¬ ((Option.isNone me && strStartsWith x "Unhandled exception") = true)
      from by simp [hxu])]
    rw [if_pos hnb]
    rw [if_neg (show ¬ (false = true) from by simp)]
    rw [if_pos (show C.length > i from hlt)]
    rw [if_pos hE]
    rw [show gvStep gr gv x = some (pyStrip x) from by rw [gvStep, if_pos hgv]]
  case neg =>
    rw [if_neg hgv]
    rw [if_neg (show ¬ ((Option.isNone (some c)) = true) from by simp)]
    rw [if_neg (show ¬ ((Option.isNone me && strStartsWith x "Unhandled exception") = true)
      from by simp [hxu])]
    rw [if_pos hnb]
    rw [if_neg (show ¬ (false = true) from by simp)]
    rw [if_pos (show C.length > i from hlt)]
    rw [if_pos hE]
    rw [show gvStep gr gv x = gv from by rw [gvStep, if_neg hgv]]

/-- Closing a non-final segment: the slice from `index_start` up to the
line before the end marker is appended and the marker line is
reconsidered as the next start marker without advancing. -/
theorem fsLoop_step_close (C : List String) (bs : List (String × String)) (gr cn : String)
    (i : Nat) (hlt : i < C.length) (hpos : i > 0) (x : String) (hx : C.getD i "" = x)
    (nb : String) (hnb : strStartsWith x nb = true)
    (hxu : strStartsWith x "Unhandled exception" = false)
    (segIdx : Nat) (hseg : (((segIdx + 1)) == 6) = false)
    (idxStart : Nat) (segs : List (List String)) (gv me : Option String)
    (c : String) (f : Nat) :
    findSegmentsLoop C bs gr cn (f + 1)
        ⟨i, true, segIdx, idxStart, segs, gv, some c, me, nb⟩ =
      findSegmentsLoop C bs gr cn f
        ⟨i, false, segIdx + 1, idxStart, segs ++ [pySlice C idxStart (i - 1)],
          gvStep gr gv x, some c, me, boundaryAt bs (segIdx + 1) false⟩ := by
  simp only [findSegmentsLoop]
  rw [if_pos (show (⟨i, true, segIdx, idxStart, segs, gv, some c, me, nb⟩ :
    FSState).current_index < C.length from hlt)]
  rw [hx]
  by_cases hgv : (gv.isNone && !gr.isEmpty && strStartsWith x gr) = true
  case pos =>
    rw [if_pos hgv]
    rw [if_neg (show ¬ ((Option.isNone (some c)) = true) from by simp)]
    rw [if_neg (show ¬ ((Option.isNone me && strStartsWith x "Unhandled exception") = true)
      from by simp [hxu])]
    rw [if_pos hnb]
    rw [if_pos (show true = true from rfl)]
    rw [if_pos hpos]
    rw [if_neg (show ¬ (((segIdx + 1) == 6) = true) from by simp [hseg])]
    rw [show gvStep gr gv x = some (pyStrip x) from by rw [gvStep, if_pos hgv]]
  case neg =>
    rw [if_neg hgv]
    rw [if_neg (show ¬ ((Option.isNone (some c)) = true) from by simp)]
    rw [if_neg (show ¬ ((Option.isNone me && strStartsWith x "Unhandled exception") = true)
      from by simp [hxu])]
    rw [if_pos hnb]
    rw [if_pos (show true = true from rfl)]
    rw [if_pos hpos]
    rw [if_neg (show ¬ (((segIdx + 1) == 6) = true) from by simp [hseg])]
    rw [show gvStep gr gv x = gv from by rw [gvStep, if_neg hgv]]

/-- Once the cursor is past the end of the data the loop is inert. -/
theorem fsLoop_exit (C : List String) (bs : List (String × String)) (gr cn : String)
    (st : FSState) (h : C.length ≤ st.current_index) :
    ∀ f, findSegmentsLoop C bs gr cn f st = st := by
  intro f
  cases f with
  | zero => rfl
  | succ f2 =>
    simp only [findSegmentsLoop]
    rw [if_neg (by omega)]

/-- Scanning a whole block of lines before the crashgen line: only the
game-version capture can fire. -/
theorem fsLoop_pass_nocg (C : List String) (bs : List (String × String)) (gr cn : String) :
    ∀ (X : List String) (i : Nat),
      (∀ k, k < X.length → C.getD (i + k) "" = X.getD k "") →
      (∀ l ∈ X, strStartsWith l cn = false) →
      i + X.length ≤ C.length →
      ∀ (segIdx idxStart : Nat) (segs : List (List String)) (gv me : Option String)
        (nb : String) (f : Nat),
      findSegmentsLoop C bs gr cn (f + X.length)
          ⟨i, false, segIdx, idxStart, segs, gv, none, me, nb⟩ =
        findSegmentsLoop C bs gr cn f
          ⟨i + X.length, false, segIdx, idxStart, segs, gvUpdate gr gv X, none, me, nb⟩ := by
  intro X
  induction X with
  | nil => intro i _ _ _ segIdx idxStart segs gv me nb f; simp [gvUpdate_nil]
  | cons x X2 ih =>
    intro i hget hcn hlen segIdx idxStart segs gv me nb f
    have hx : C.getD i "" = x := by simpa using hget 0 (by simp)
    have hlt : i < C.length := by
      simp only [List.length_cons] at hlen
      omega
    simp only [List.length_cons]
    rw [← Nat.add_assoc]
    rw [fsLoop_step_nocg C bs gr cn i hlt x hx (hcn x (List.mem_cons_self _ _))]
    rw [gvUpdate_cons]
    rw [show i + (X2.length + 1) = (i + 1) + X2.length from by omega]
    apply ih (i + 1)
    · intro k hk
      have := hget (k + 1) (by simp only [List.length_cons]; omega)
      rw [show i + 1 + k = i + (k + 1) from by omega]
      simpa [List.getD] using this
    · intro l hl
      exact hcn l (List.mem_cons_of_mem _ hl)
    · simp only [List.length_cons] at hlen
      omega

/-- Scanning a block of non-boundary lines with the crashgen field set:
the header captures evolve, nothing else changes. -/
theorem fsLoop_pass_scan (C : List String) (bs : List (String × String)) (gr cn : String)
    (coll : Bool) (nb : String) (c : String) :
    ∀ (X : List String) (i : Nat),
      (∀ k, k < X.length → C.getD (i + k) "" = X.getD k "") →
      (∀ l ∈ X, strStartsWith l nb = false) →
      i + X.length ≤ C.length →
      (coll = false ∨ i + X.length < C.length) →
      ∀ (segIdx idxStart : Nat) (segs : List (List String)) (gv me : Option String) (f : Nat),
      findSegmentsLoop C bs gr cn (f + X.length)
          ⟨i, coll, segIdx, idxStart, segs, gv, some c, me, nb⟩ =
        findSegmentsLoop C bs gr cn f
          ⟨i + X.length, coll, segIdx, idxStart, segs, gvUpdate gr gv X, some c,
            meUpdate me X, nb⟩ := by
  intro X
  induction X with
  | nil => intro i _ _ _ _ segIdx idxStart segs gv me f; simp [gvUpdate_nil, meUpdate_nil]
  | cons x X2 ih =>
    intro i hget hnb hlen hadv segIdx idxStart segs gv me f
    have hx : C.getD i "" = x := by simpa using hget 0 (by simp)
    have hlt : i < C.length := by
      simp only [List.length_cons] at hlen
      omega
    have hadvstep : (coll && ((i + 1) == C.length)) = false := by
      rcases hadv with h | h
      · rw [h, Bool.false_and]
      · have : (i + 1) ≠ C.length := by
          simp only [List.length_cons] at h
          omega
        rw [beq_eq_false_iff_ne.mpr this, Bool.and_false]
    simp only [List.length_cons]
    rw [← Nat.add_assoc]
    rw [fsLoop_step_scan C bs gr cn i hlt x hx coll nb (hnb x (List.mem_cons_self _ _))
      hadvstep]
    rw [gvUpdate_cons, meUpdate_cons]
    rw [show i + (X2.length + 1) = (i + 1) + X2.length from by omega]
    apply ih (i + 1)
    · intro k hk
      have := hget (k + 1) (by simp only [List.length_cons]; omega)
      rw [show i + 1 + k = i + (k + 1) from by omega]
      simpa [List.getD] using this
    · intro l hl
      exact hnb l (List.mem_cons_of_mem _ hl)
    · simp only [List.length_cons] at hlen
      omega
    · rcases hadv with h | h
      · exact Or.inl h
      · refine Or.inr ?_
        simp only [List.length_cons] at h
        omega

/-- The slice a segment close produces: from the line after the start
marker up to (excluding) the line before the end marker, i.e. the block
without its last line. -/
theorem pySlice_block (A S R : List String) :
    pySlice (A ++ S ++ R) A.length (A.length + S.length - 1) = S.dropLast := by
  unfold pySlice
  cases S with
  | nil =>
    simp only [List.length_nil, Nat.add_zero, List.append_nil]
    rw [List.take_append_of_le_length (by omega)]
    rw [List.drop_eq_nil_of_le (by rw [List.length_take]; omega)]
    rfl
  | cons s S2 =>
    have hb : A.length + (s :: S2).length - 1 = A.length + S2.length := by
      simp only [List.length_cons]
      omega
    rw [hb, List.append_assoc, List.take_append S2.length, List.drop_left]
    rw [List.take_append_of_le_length (by simp only [List.length_cons]; omega)]
    rw [List.dropLast_eq_take]
    simp only [List.length_cons, Nat.add_sub_cancel]

/-- Dropping everything up to and including a marker line. -/
theorem drop_after_marker (A B : List String) (x : String) :
    (A ++ x :: B).drop (A.length + 1) = B := by
  rw [show A ++ x :: B = (A ++ [x]) ++ B from by simp]
  rw [show A.length + 1 = (A ++ [x]).length from by simp]
  exact List.drop_left _ _

set_option maxHeartbeats 3200000 in
/-- Claim C1 (amended, general form): for a log with the six boundary
markers in order and the analyzer-version line before them, the five
closed segments are the lines strictly between their markers with the
line immediately preceding each end marker additionally dropped, and
the final segment is everything after the `PLUGINS:` marker; the line
count balances only after also counting one dropped line per nonempty
closed segment and the pre-marker header lines. -/
theorem c1_closed_segment_drops_line_before_end_marker
    (P1 P2 S1 S2 S3 S4 S5 S6 : List String) (cg m0 m1 m2 m3 m4 m5 : String)
    (xse cn gr : String)
    (hcg : strStartsWith cg cn = true)
    (hP1 : ∀ l ∈ P1, strStartsWith l cn = false)
    (hP2 : ∀ l ∈ P2, strStartsWith l "\t[Compatibility]" = false)
    (hS1 : ∀ l ∈ S1, strStartsWith l "SYSTEM SPECS:" = false)
    (hS2 : ∀ l ∈ S2, strStartsWith l "PROBABLE CALL STACK:" = false)
    (hS3 : ∀ l ∈ S3, strStartsWith l "MODULES:" = false)
    (hS4 : ∀ l ∈ S4, strStartsWith l (strUpper xse ++ " PLUGINS:") = false)
    (hS5 : ∀ l ∈ S5, strStartsWith l "PLUGINS:" = false)
    (hm0 : strStartsWith m0 "\t[Compatibility]" = true)
    (hm1 : strStartsWith m1 "SYSTEM SPECS:" = true)
    (hm2 : strStartsWith m2 "PROBABLE CALL STACK:" = true)
    (hm3 : strStartsWith m3 "MODULES:" = true)
    (hm4 : strStartsWith m4 (strUpper xse ++ " PLUGINS:") = true)
    (hm5 : strStartsWith m5 "PLUGINS:" = true)
    (hmu : ∀ l ∈ [m0, m1, m2, m3, m4, m5], strStartsWith l "Unhandled exception" = false)
    (hxse : ((strUpper xse ++ " PLUGINS:") == "EOF") = false) :
    (find_segments (P1 ++ cg :: (P2 ++ m0 :: (S1 ++ m1 :: (S2 ++ m2 :: (S3 ++ m3 ::
          (S4 ++ m4 :: (S5 ++ m5 :: S6))))))) xse cn gr).2.2.2 =
      [S1.dropLast.map pyStrip, S2.dropLast.map pyStrip, S3.dropLast.map pyStrip,
        S4.dropLast.map pyStrip, S5.dropLast.map pyStrip, S6.map pyStrip] ∧
    ((find_segments (P1 ++ cg :: (P2 ++ m0 :: (S1 ++ m1 :: (S2 ++ m2 :: (S3 ++ m3 ::
          (S4 ++ m4 :: (S5 ++ m5 :: S6))))))) xse cn gr).2.2.2.map List.length).sum + 6 +
        (P1.length + 1 + P2.length) +
        (min S1.length 1 + min S2.length 1 + min S3.length 1 + min S4.length 1 +
          min S5.length 1) =
      (P1 ++ cg :: (P2 ++ m0 :: (S1 ++ m1 :: (S2 ++ m2 :: (S3 ++ m3 ::
          (S4 ++ m4 :: (S5 ++ m5 :: S6))))))).length := by
  have hmain : (find_segments (P1 ++ cg :: (P2 ++ m0 :: (S1 ++ m1 :: (S2 ++ m2 :: (S3 ++ m3 :: (S4 ++ m4 :: (S5 ++ m5 :: S6))))))) xse cn gr).2.2.2 =
      [S1.dropLast.map pyStrip, S2.dropLast.map pyStrip, S3.dropLast.map pyStrip,
        S4.dropLast.map pyStrip, S5.dropLast.map pyStrip, S6.map pyStrip] := by
      unfold find_segments
      obtain ⟨f0, hf0⟩ : ∃ f0, 2 * (P1 ++ cg :: (P2 ++ m0 :: (S1 ++ m1 :: (S2 ++ m2 :: (S3 ++ m3 :: (S4 ++ m4 :: (S5 ++ m5 :: S6))))))).length + 1 =
          f0 + 1 + 1 + S5.length + 1 + 1 + S4.length + 1 + 1 + S3.length + 1 + 1 +
            S2.length + 1 + 1 + S1.length + 1 + P2.length + 1 + P1.length := by
        refine ⟨2 * (P1 ++ cg :: (P2 ++ m0 :: (S1 ++ m1 :: (S2 ++ m2 :: (S3 ++ m3 :: (S4 ++ m4 :: (S5 ++ m5 :: S6))))))).length + 1 -
          (1 + 1 + S5.length + 1 + 1 + S4.length + 1 + 1 + S3.length + 1 + 1 +
            S2.length + 1 + 1 + S1.length + 1 + P2.length + 1 + P1.length), ?_⟩
        simp only [List.length_append, List.length_cons, List.length_singleton, List.length_nil]
        omega
      rw [hf0]
      rw [fsLoop_pass_nocg (P1 ++ cg :: (P2 ++ m0 :: (S1 ++ m1 :: (S2 ++ m2 :: (S3 ++ m3 :: (S4 ++ m4 :: (S5 ++ m5 :: S6))))))) (segment_boundaries (strUpper xse)) gr cn P1 0
        (by
          intro k hk
          rw [show (P1 ++ cg :: (P2 ++ m0 :: (S1 ++ m1 :: (S2 ++ m2 :: (S3 ++ m3 :: (S4 ++ m4 :: (S5 ++ m5 :: S6))))))) = [] ++ P1 ++ (cg :: (P2 ++ m0 :: (S1 ++ m1 :: (S2 ++ m2 :: (S3 ++ m3 :: (S4 ++ m4 :: (S5 ++ m5 :: S6))))))) from by simp]
          rw [show 0 + k = ([] : List String).length + k from by simp]
          exact getD_append_block _ _ _ k hk)
        hP1 (by simp only [List.length_append, List.length_cons, List.length_singleton, List.length_nil]; omega)]
      rw [fsLoop_step_setcg (P1 ++ cg :: (P2 ++ m0 :: (S1 ++ m1 :: (S2 ++ m2 :: (S3 ++ m3 :: (S4 ++ m4 :: (S5 ++ m5 :: S6))))))) (segment_boundaries (strUpper xse)) gr cn (0 + P1.length) (by simp only [List.length_append, List.length_cons, List.length_singleton, List.length_nil]; omega) cg
        (by
        rw [show 0 + P1.length = P1.length from by omega]
        exact getD_append_cons _ _ _) hcg]
      rw [fsLoop_pass_scan (P1 ++ cg :: (P2 ++ m0 :: (S1 ++ m1 :: (S2 ++ m2 :: (S3 ++ m3 :: (S4 ++ m4 :: (S5 ++ m5 :: S6))))))) (segment_boundaries (strUpper xse)) gr cn false (boundaryAt (segment_boundaries (strUpper xse)) 0 false)
        (pyStrip cg) P2 (0 + P1.length + 1)
        (by
        intro k hk
        rw [show (P1 ++ cg :: (P2 ++ m0 :: (S1 ++ m1 :: (S2 ++ m2 :: (S3 ++ m3 :: (S4 ++ m4 :: (S5 ++ m5 :: S6))))))) = (P1 ++ [cg]) ++ P2 ++ (m0 :: (S1 ++ m1 :: (S2 ++ m2 :: (S3 ++ m3 :: (S4 ++ m4 :: (S5 ++ m5 :: S6)))))) from by simp]
        rw [show 0 + P1.length + 1 + k = ((P1 ++ [cg])).length + k from by simp only [List.length_append, List.length_cons, List.length_singleton, List.length_nil]; omega]
        exact getD_append_block _ _ _ k hk)
        hP2 (by simp only [List.length_append, List.length_cons, List.length_singleton, List.length_nil]; omega) (Or.inl rfl)]
      rw [fsLoop_step_open (P1 ++ cg :: (P2 ++ m0 :: (S1 ++ m1 :: (S2 ++ m2 :: (S3 ++ m3 :: (S4 ++ m4 :: (S5 ++ m5 :: S6))))))) (segment_boundaries (strUpper xse)) gr cn (0 + P1.length + 1 + P2.length) (by simp only [List.length_append, List.length_cons, List.length_singleton, List.length_nil]; omega) m0
        (by
        rw [show (P1 ++ cg :: (P2 ++ m0 :: (S1 ++ m1 :: (S2 ++ m2 :: (S3 ++ m3 :: (S4 ++ m4 :: (S5 ++ m5 :: S6))))))) = (P1 ++ [cg] ++ P2) ++ m0 :: (S1 ++ m1 :: (S2 ++ m2 :: (S3 ++ m3 :: (S4 ++ m4 :: (S5 ++ m5 :: S6))))) from by simp]
        rw [show 0 + P1.length + 1 + P2.length = ((P1 ++ [cg] ++ P2)).length from by simp only [List.length_append, List.length_cons, List.length_singleton, List.length_nil]; omega]
        exact getD_append_cons _ _ _) (boundaryAt (segment_boundaries (strUpper xse)) 0 false) hm0
        (hmu m0 (by simp)) (0) (show (("SYSTEM SPECS:" : String) == "EOF") = false from by decide)
        (by rw [beq_eq_false_iff_ne]; simp only [List.length_append, List.length_cons, List.length_singleton, List.length_nil]; omega)]
      rw [fsLoop_pass_scan (P1 ++ cg :: (P2 ++ m0 :: (S1 ++ m1 :: (S2 ++ m2 :: (S3 ++ m3 :: (S4 ++ m4 :: (S5 ++ m5 :: S6))))))) (segment_boundaries (strUpper xse)) gr cn true (boundaryAt (segment_boundaries (strUpper xse)) (0) true)
        (pyStrip cg) S1 (0 + P1.length + 1 + P2.length + 1)
        (by
        intro k hk
        rw [show (P1 ++ cg :: (P2 ++ m0 :: (S1 ++ m1 :: (S2 ++ m2 :: (S3 ++ m3 :: (S4 ++ m4 :: (S5 ++ m5 :: S6))))))) = (P1 ++ [cg] ++ P2 ++ [m0]) ++ S1 ++ (m1 :: (S2 ++ m2 :: (S3 ++ m3 :: (S4 ++ m4 :: (S5 ++ m5 :: S6))))) from by simp]
        rw [show 0 + P1.length + 1 + P2.length + 1 + k = ((P1 ++ [cg] ++ P2 ++ [m0])).length + k from by simp only [List.length_append, List.length_cons, List.length_singleton, List.length_nil]; omega]
        exact getD_append_block _ _ _ k hk)
        hS1 (by simp only [List.length_append, List.length_cons, List.length_singleton, List.length_nil]; omega) (Or.inr (by simp only [List.length_append, List.length_cons, List.length_singleton, List.length_nil]; omega))]
      rw [fsLoop_step_close (P1 ++ cg :: (P2 ++ m0 :: (S1 ++ m1 :: (S2 ++ m2 :: (S3 ++ m3 :: (S4 ++ m4 :: (S5 ++ m5 :: S6))))))) (segment_boundaries (strUpper xse)) gr cn (0 + P1.length + 1 + P2.length + 1 + S1.length) (by simp only [List.length_append, List.length_cons, List.length_singleton, List.length_nil]; omega) (by omega) m1
        (by
        rw [show (P1 ++ cg :: (P2 ++ m0 :: (S1 ++ m1 :: (S2 ++ m2 :: (S3 ++ m3 :: (S4 ++ m4 :: (S5 ++ m5 :: S6))))))) = (P1 ++ [cg] ++ P2 ++ [m0] ++ S1) ++ m1 :: (S2 ++ m2 :: (S3 ++ m3 :: (S4 ++ m4 :: (S5 ++ m5 :: S6)))) from by simp]
        rw [show 0 + P1.length + 1 + P2.length + 1 + S1.length = ((P1 ++ [cg] ++ P2 ++ [m0] ++ S1)).length from by simp only [List.length_append, List.length_cons, List.length_singleton, List.length_nil]; omega]
        exact getD_append_cons _ _ _) (boundaryAt (segment_boundaries (strUpper xse)) (0) true) hm1
        (hmu m1 (by simp)) (0) (by decide)]
      rw [fsLoop_step_open (P1 ++ cg :: (P2 ++ m0 :: (S1 ++ m1 :: (S2 ++ m2 :: (S3 ++ m3 :: (S4 ++ m4 :: (S5 ++ m5 :: S6))))))) (segment_boundaries (strUpper xse)) gr cn (0 + P1.length + 1 + P2.length + 1 + S1.length) (by simp only [List.length_append, List.length_cons, List.length_singleton, List.length_nil]; omega) m1
        (by
        rw [show (P1 ++ cg :: (P2 ++ m0 :: (S1 ++ m1 :: (S2 ++ m2 :: (S3 ++ m3 :: (S4 ++ m4 :: (S5 ++ m5 :: S6))))))) = (P1 ++ [cg] ++ P2 ++ [m0] ++ S1) ++ m1 :: (S2 ++ m2 :: (S3 ++ m3 :: (S4 ++ m4 :: (S5 ++ m5 :: S6)))) from by simp]
        rw [show 0 + P1.length + 1 + P2.length + 1 + S1.length = ((P1 ++ [cg] ++ P2 ++ [m0] ++ S1)).length from by simp only [List.length_append, List.length_cons, List.length_singleton, List.length_nil]; omega]
        exact getD_append_cons _ _ _) (boundaryAt (segment_boundaries (strUpper xse)) (0 + 1) false) hm1
        (hmu m1 (by simp)) (0 + 1) (show (("PROBABLE CALL STACK:" : String) == "EOF") = false from by decide)
        (by rw [beq_eq_false_iff_ne]; simp only [List.length_append, List.length_cons, List.length_singleton, List.length_nil]; omega)]
      rw [fsLoop_pass_scan (P1 ++ cg :: (P2 ++ m0 :: (S1 ++ m1 :: (S2 ++ m2 :: (S3 ++ m3 :: (S4 ++ m4 :: (S5 ++ m5 :: S6))))))) (segment_boundaries (strUpper xse)) gr cn true (boundaryAt (segment_boundaries (strUpper xse)) (0 + 1) true)
        (pyStrip cg) S2 (0 + P1.length + 1 + P2.length + 1 + S1.length + 1)
        (by
        intro k hk
        rw [show (P1 ++ cg :: (P2 ++ m0 :: (S1 ++ m1 :: (S2 ++ m2 :: (S3 ++ m3 :: (S4 ++ m4 :: (S5 ++ m5 :: S6))))))) = (P1 ++ [cg] ++ P2 ++ [m0] ++ S1 ++ [m1]) ++ S2 ++ (m2 :: (S3 ++ m3 :: (S4 ++ m4 :: (S5 ++ m5 :: S6)))) from by simp]
        rw [show 0 + P1.length + 1 + P2.length + 1 + S1.length + 1 + k = ((P1 ++ [cg] ++ P2 ++ [m0] ++ S1 ++ [m1])).length + k from by simp only [List.length_append, List.length_cons, List.length_singleton, List.length_nil]; omega]
        exact getD_append_block _ _ _ k hk)
        hS2 (by simp only [List.length_append, List.length_cons, List.length_singleton, List.length_nil]; omega) (Or.inr (by simp only [List.length_append, List.length_cons, List.length_singleton, List.length_nil]; omega))]
      rw [fsLoop_step_close (P1 ++ cg :: (P2 ++ m0 :: (S1 ++ m1 :: (S2 ++ m2 :: (S3 ++ m3 :: (S4 ++ m4 :: (S5 ++ m5 :: S6))))))) (segment_boundaries (strUpper xse)) gr cn (0 + P1.length + 1 + P2.length + 1 + S1.length + 1 + S2.length) (by simp only [List.length_append, List.length_cons, List.length_singleton, List.length_nil]; omega) (by omega) m2
        (by
        rw [show (P1 ++ cg :: (P2 ++ m0 :: (S1 ++ m1 :: (S2 ++ m2 :: (S3 ++ m3 :: (S4 ++ m4 :: (S5 ++ m5 :: S6))))))) = (P1 ++ [cg] ++ P2 ++ [m0] ++ S1 ++ [m1] ++ S2) ++ m2 :: (S3 ++ m3 :: (S4 ++ m4 :: (S5 ++ m5 :: S6))) from by simp]
        rw [show 0 + P1.length + 1 + P2.length + 1 + S1.length + 1 + S2.length = ((P1 ++ [cg] ++ P2 ++ [m0] ++ S1 ++ [m1] ++ S2)).length from by simp only [List.length_append, List.length_cons, List.length_singleton, List.length_nil]; omega]
        exact getD_append_cons _ _ _) (boundaryAt (segment_boundaries (strUpper xse)) (0 + 1) true) hm2
        (hmu m2 (by simp)) (0 + 1) (by decide)]
      rw [fsLoop_step_open (P1 ++ cg :: (P2 ++ m0 :: (S1 ++ m1 :: (S2 ++ m2 :: (S3 ++ m3 :: (S4 ++ m4 :: (S5 ++ m5 :: S6))))))) (segment_boundaries (strUpper xse)) gr cn (0 + P1.length + 1 + P2.length + 1 + S1.length + 1 + S2.length) (by simp only [List.length_append, List.length_cons, List.length_singleton, List.length_nil]; omega) m2
        (by
        rw [show (P1 ++ cg :: (P2 ++ m0 :: (S1 ++ m1 :: (S2 ++ m2 :: (S3 ++ m3 :: (S4 ++ m4 :: (S5 ++ m5 :: S6))))))) = (P1 ++ [cg] ++ P2 ++ [m0] ++ S1 ++ [m1] ++ S2) ++ m2 :: (S3 ++ m3 :: (S4 ++ m4 :: (S5 ++ m5 :: S6))) from by simp]
        rw [show 0 + P1.length + 1 + P2.length + 1 + S1.length + 1 + S2.length = ((P1 ++ [cg] ++ P2 ++ [m0] ++ S1 ++ [m1] ++ S2)).length from by simp only [List.length_append, List.length_cons, List.length_singleton, List.length_nil]; omega]
        exact getD_append_cons _ _ _) (boundaryAt (segment_boundaries (strUpper xse)) (0 + 1 + 1) false) hm2
        (hmu m2 (by simp)) (0 + 1 + 1) (show (("MODULES:" : String) == "EOF") = false from by decide)
        (by rw [beq_eq_false_iff_ne]; simp only [List.length_append, List.length_cons, List.length_singleton, List.length_nil]; omega)]
      rw [fsLoop_pass_scan (P1 ++ cg :: (P2 ++ m0 :: (S1 ++ m1 :: (S2 ++ m2 :: (S3 ++ m3 :: (S4 ++ m4 :: (S5 ++ m5 :: S6))))))) (segment_boundaries (strUpper xse)) gr cn true (boundaryAt (segment_boundaries (strUpper xse)) (0 + 1 + 1) true)
        (pyStrip cg) S3 (0 + P1.length + 1 + P2.length + 1 + S1.length + 1 + S2.length + 1)
        (by
        intro k hk
        rw [show (P1 ++ cg :: (P2 ++ m0 :: (S1 ++ m1 :: (S2 ++ m2 :: (S3 ++ m3 :: (S4 ++ m4 :: (S5 ++ m5 :: S6))))))) = (P1 ++ [cg] ++ P2 ++ [m0] ++ S1 ++ [m1] ++ S2 ++ [m2]) ++ S3 ++ (m3 :: (S4 ++ m4 :: (S5 ++ m5 :: S6))) from by simp]
        rw [show 0 + P1.length + 1 + P2.length + 1 + S1.length + 1 + S2.length + 1 + k = ((P1 ++ [cg] ++ P2 ++ [m0] ++ S1 ++ [m1] ++ S2 ++ [m2])).length + k from by simp only [List.length_append, List.length_cons, List.length_singleton, List.length_nil]; omega]
        exact getD_append_block _ _ _ k hk)
        hS3 (by simp only [List.length_append, List.length_cons, List.length_singleton, List.length_nil]; omega) (Or.inr (by simp only [List.length_append, List.length_cons, List.length_singleton, List.length_nil]; omega))]
      rw [fsLoop_step_close (P1 ++ cg :: (P2 ++ m0 :: (S1 ++ m1 :: (S2 ++ m2 :: (S3 ++ m3 :: (S4 ++ m4 :: (S5 ++ m5 :: S6))))))) (segment_boundaries (strUpper xse)) gr cn (0 + P1.length + 1 + P2.length + 1 + S1.length + 1 + S2.length + 1 + S3.length) (by simp only [List.length_append, List.length_cons, List.length_singleton, List.length_nil]; omega) (by omega) m3
        (by
        rw [show (P1 ++ cg :: (P2 ++ m0 :: (S1 ++ m1 :: (S2 ++ m2 :: (S3 ++ m3 :: (S4 ++ m4 :: (S5 ++ m5 :: S6))))))) = (P1 ++ [cg] ++ P2 ++ [m0] ++ S1 ++ [m1] ++ S2 ++ [m2] ++ S3) ++ m3 :: (S4 ++ m4 :: (S5 ++ m5 :: S6)) from by simp]
        rw [show 0 + P1.length + 1 + P2.length + 1 + S1.length + 1 + S2.length + 1 + S3.length = ((P1 ++ [cg] ++ P2 ++ [m0] ++ S1 ++ [m1] ++ S2 ++ [m2] ++ S3)).length from by simp only [List.length_append, List.length_cons, List.length_singleton, List.length_nil]; omega]
        exact getD_append_cons _ _ _) (boundaryAt (segment_boundaries (strUpper xse)) (0 + 1 + 1) true) hm3
        (hmu m3 (by simp)) (0 + 1 + 1) (by decide)]
      rw [fsLoop_step_open (P1 ++ cg :: (P2 ++ m0 :: (S1 ++ m1 :: (S2 ++ m2 :: (S3 ++ m3 :: (S4 ++ m4 :: (S5 ++ m5 :: S6))))))) (segment_boundaries (strUpper xse)) gr cn (0 + P1.length + 1 + P2.length + 1 + S1.length + 1 + S2.length + 1 + S3.length) (by simp only [List.length_append, List.length_cons, List.length_singleton, List.length_nil]; omega) m3
        (by
        rw [show (P1 ++ cg :: (P2 ++ m0 :: (S1 ++ m1 :: (S2 ++ m2 :: (S3 ++ m3 :: (S4 ++ m4 :: (S5 ++ m5 :: S6))))))) = (P1 ++ [cg] ++ P2 ++ [m0] ++ S1 ++ [m1] ++ S2 ++ [m2] ++ S3) ++ m3 :: (S4 ++ m4 :: (S5 ++ m5 :: S6)) from by simp]
        rw [show 0 + P1.length + 1 + P2.length + 1 + S1.length + 1 + S2.length + 1 + S3.length = ((P1 ++ [cg] ++ P2 ++ [m0] ++ S1 ++ [m1] ++ S2 ++ [m2] ++ S3)).length from by simp only [List.length_append, List.length_cons, List.length_singleton, List.length_nil]; omega]
        exact getD_append_cons _ _ _) (boundaryAt (segment_boundaries (strUpper xse)) (0 + 1 + 1 + 1) false) hm3
        (hmu m3 (by simp)) (0 + 1 + 1 + 1) hxse
        (by rw [beq_eq_false_iff_ne]; simp only [List.length_append, List.length_cons, List.length_singleton, List.length_nil]; omega)]
      rw [fsLoop_pass_scan (P1 ++ cg :: (P2 ++ m0 :: (S1 ++ m1 :: (S2 ++ m2 :: (S3 ++ m3 :: (S4 ++ m4 :: (S5 ++ m5 :: S6))))))) (segment_boundaries (strUpper xse)) gr cn true (boundaryAt (segment_boundaries (strUpper xse)) (0 + 1 + 1 + 1) true)
        (pyStrip cg) S4 (0 + P1.length + 1 + P2.length + 1 + S1.length + 1 + S2.length + 1 + S3.length + 1)
        (by
        intro k hk
        rw [show (P1 ++ cg :: (P2 ++ m0 :: (S1 ++ m1 :: (S2 ++ m2 :: (S3 ++ m3 :: (S4 ++ m4 :: (S5 ++ m5 :: S6))))))) = (P1 ++ [cg] ++ P2 ++ [m0] ++ S1 ++ [m1] ++ S2 ++ [m2] ++ S3 ++ [m3]) ++ S4 ++ (m4 :: (S5 ++ m5 :: S6)) from by simp]
        rw [show 0 + P1.length + 1 + P2.length + 1 + S1.length + 1 + S2.length + 1 + S3.length + 1 + k = ((P1 ++ [cg] ++ P2 ++ [m0] ++ S1 ++ [m1] ++ S2 ++ [m2] ++ S3 ++ [m3])).length + k from by simp only [List.length_append, List.length_cons, List.length_singleton, List.length_nil]; omega]
        exact getD_append_block _ _ _ k hk)
        hS4 (by simp only [List.length_append, List.length_cons, List.length_singleton, List.length_nil]; omega) (Or.inr (by simp only [List.length_append, List.length_cons, List.length_singleton, List.length_nil]; omega))]
      rw [fsLoop_step_close (P1 ++ cg :: (P2 ++ m0 :: (S1 ++ m1 :: (S2 ++ m2 :: (S3 ++ m3 :: (S4 ++ m4 :: (S5 ++ m5 :: S6))))))) (segment_boundaries (strUpper xse)) gr cn (0 + P1.length + 1 + P2.length + 1 + S1.length + 1 + S2.length + 1 + S3.length + 1 + S4.length) (by simp only [List.length_append, List.length_cons, List.length_singleton, List.length_nil]; omega) (by omega) m4
        (by
        rw [show (P1 ++ cg :: (P2 ++ m0 :: (S1 ++ m1 :: (S2 ++ m2 :: (S3 ++ m3 :: (S4 ++ m4 :: (S5 ++ m5 :: S6))))))) = (P1 ++ [cg] ++ P2 ++ [m0] ++ S1 ++ [m1] ++ S2 ++ [m2] ++ S3 ++ [m3] ++ S4) ++ m4 :: (S5 ++ m5 :: S6) from by simp]
        rw [show 0 + P1.length + 1 + P2.length + 1 + S1.length + 1 + S2.length + 1 + S3.length + 1 + S4.length = ((P1 ++ [cg] ++ P2 ++ [m0] ++ S1 ++ [m1] ++ S2 ++ [m2] ++ S3 ++ [m3] ++ S4)).length from by simp only [List.length_append, List.length_cons, List.length_singleton, List.length_nil]; omega]
        exact getD_append_cons _ _ _) (boundaryAt (segment_boundaries (strUpper xse)) (0 + 1 + 1 + 1) true) hm4
        (hmu m4 (by simp)) (0 + 1 + 1 + 1) (by decide)]
      rw [fsLoop_step_open (P1 ++ cg :: (P2 ++ m0 :: (S1 ++ m1 :: (S2 ++ m2 :: (S3 ++ m3 :: (S4 ++ m4 :: (S5 ++ m5 :: S6))))))) (segment_boundaries (strUpper xse)) gr cn (0 + P1.length + 1 + P2.length + 1 + S1.length + 1 + S2.length + 1 + S3.length + 1 + S4.length) (by simp only [List.length_append, List.length_cons, List.length_singleton, List.length_nil]; omega) m4
        (by
        rw [show (P1 ++ cg :: (P2 ++ m0 :: (S1 ++ m1 :: (S2 ++ m2 :: (S3 ++ m3 :: (S4 ++ m4 :: (S5 ++ m5 :: S6))))))) = (P1 ++ [cg] ++ P2 ++ [m0] ++ S1 ++ [m1] ++ S2 ++ [m2] ++ S3 ++ [m3] ++ S4) ++ m4 :: (S5 ++ m5 :: S6) from by simp]
        rw [show 0 + P1.length + 1 + P2.length + 1 + S1.length + 1 + S2.length + 1 + S3.length + 1 + S4.length = ((P1 ++ [cg] ++ P2 ++ [m0] ++ S1 ++ [m1] ++ S2 ++ [m2] ++ S3 ++ [m3] ++ S4)).length from by simp only [List.length_append, List.length_cons, List.length_singleton, List.length_nil]; omega]
        exact getD_append_cons _ _ _) (boundaryAt (segment_boundaries (strUpper xse)) (0 + 1 + 1 + 1 + 1) false) hm4
        (hmu m4 (by simp)) (0 + 1 + 1 + 1 + 1) (show (("PLUGINS:" : String) == "EOF") = false from by decide)
        (by rw [beq_eq_false_iff_ne]; simp only [List.length_append, List.length_cons, List.length_singleton, List.length_nil]; omega)]
      rw [fsLoop_pass_scan (P1 ++ cg :: (P2 ++ m0 :: (S1 ++ m1 :: (S2 ++ m2 :: (S3 ++ m3 :: (S4 ++ m4 :: (S5 ++ m5 :: S6))))))) (segment_boundaries (strUpper xse)) gr cn true (boundaryAt (segment_boundaries (strUpper xse)) (0 + 1 + 1 + 1 + 1) true)
        (pyStrip cg) S5 (0 + P1.length + 1 + P2.length + 1 + S1.length + 1 + S2.length + 1 + S3.length + 1 + S4.length + 1)
        (by
        intro k hk
        rw [show (P1 ++ cg :: (P2 ++ m0 :: (S1 ++ m1 :: (S2 ++ m2 :: (S3 ++ m3 :: (S4 ++ m4 :: (S5 ++ m5 :: S6))))))) = (P1 ++ [cg] ++ P2 ++ [m0] ++ S1 ++ [m1] ++ S2 ++ [m2] ++ S3 ++ [m3] ++ S4 ++ [m4]) ++ S5 ++ (m5 :: S6) from by simp]
        rw [show 0 + P1.length + 1 + P2.length + 1 + S1.length + 1 + S2.length + 1 + S3.length + 1 + S4.length + 1 + k = ((P1 ++ [cg] ++ P2 ++ [m0] ++ S1 ++ [m1] ++ S2 ++ [m2] ++ S3 ++ [m3] ++ S4 ++ [m4])).length + k from by simp only [List.length_append, List.length_cons, List.length_singleton, List.length_nil]; omega]
        exact getD_append_block _ _ _ k hk)
        hS5 (by simp only [List.length_append, List.length_cons, List.length_singleton, List.length_nil]; omega) (Or.inr (by simp only [List.length_append, List.length_cons, List.length_singleton, List.length_nil]; omega))]
      rw [fsLoop_step_close (P1 ++ cg :: (P2 ++ m0 :: (S1 ++ m1 :: (S2 ++ m2 :: (S3 ++ m3 :: (S4 ++ m4 :: (S5 ++ m5 :: S6))))))) (segment_boundaries (strUpper xse)) gr cn (0 + P1.length + 1 + P2.length + 1 + S1.length + 1 + S2.length + 1 + S3.length + 1 + S4.length + 1 + S5.length) (by simp only [List.length_append, List.length_cons, List.length_singleton, List.length_nil]; omega) (by omega) m5
        (by
        rw [show (P1 ++ cg :: (P2 ++ m0 :: (S1 ++ m1 :: (S2 ++ m2 :: (S3 ++ m3 :: (S4 ++ m4 :: (S5 ++ m5 :: S6))))))) = (P1 ++ [cg] ++ P2 ++ [m0] ++ S1 ++ [m1] ++ S2 ++ [m2] ++ S3 ++ [m3] ++ S4 ++ [m4] ++ S5) ++ m5 :: S6 from by simp]
        rw [show 0 + P1.length + 1 + P2.length + 1 + S1.length + 1 + S2.length + 1 + S3.length + 1 + S4.length + 1 + S5.length = ((P1 ++ [cg] ++ P2 ++ [m0] ++ S1 ++ [m1] ++ S2 ++ [m2] ++ S3 ++ [m3] ++ S4 ++ [m4] ++ S5)).length from by simp only [List.length_append, List.length_cons, List.length_singleton, List.length_nil]; omega]
        exact getD_append_cons _ _ _) (boundaryAt (segment_boundaries (strUpper xse)) (0 + 1 + 1 + 1 + 1) true) hm5
        (hmu m5 (by simp)) (0 + 1 + 1 + 1 + 1) (by decide)]
      rw [fsLoop_step_openEOF (P1 ++ cg :: (P2 ++ m0 :: (S1 ++ m1 :: (S2 ++ m2 :: (S3 ++ m3 :: (S4 ++ m4 :: (S5 ++ m5 :: S6))))))) (segment_boundaries (strUpper xse)) gr cn (0 + P1.length + 1 + P2.length + 1 + S1.length + 1 + S2.length + 1 + S3.length + 1 + S4.length + 1 + S5.length) (by simp only [List.length_append, List.length_cons, List.length_singleton, List.length_nil]; omega) m5
        (by
        rw [show (P1 ++ cg :: (P2 ++ m0 :: (S1 ++ m1 :: (S2 ++ m2 :: (S3 ++ m3 :: (S4 ++ m4 :: (S5 ++ m5 :: S6))))))) = (P1 ++ [cg] ++ P2 ++ [m0] ++ S1 ++ [m1] ++ S2 ++ [m2] ++ S3 ++ [m3] ++ S4 ++ [m4] ++ S5) ++ m5 :: S6 from by simp]
        rw [show 0 + P1.length + 1 + P2.length + 1 + S1.length + 1 + S2.length + 1 + S3.length + 1 + S4.length + 1 + S5.length = ((P1 ++ [cg] ++ P2 ++ [m0] ++ S1 ++ [m1] ++ S2 ++ [m2] ++ S3 ++ [m3] ++ S4 ++ [m4] ++ S5)).length from by simp only [List.length_append, List.length_cons, List.length_singleton, List.length_nil]; omega]
        exact getD_append_cons _ _ _) (boundaryAt (segment_boundaries (strUpper xse)) (0 + 1 + 1 + 1 + 1 + 1) false) hm5
        (hmu m5 (by simp)) (0 + 1 + 1 + 1 + 1 + 1) (show (("EOF" : String) == "EOF") = true from by decide)]
      rw [show pySlice (P1 ++ cg :: (P2 ++ m0 :: (S1 ++ m1 :: (S2 ++ m2 :: (S3 ++ m3 :: (S4 ++ m4 :: (S5 ++ m5 :: S6))))))) (0 + P1.length + 1 + P2.length + 1) (0 + P1.length + 1 + P2.length + 1 + S1.length - 1) = S1.dropLast from by
        rw [show (P1 ++ cg :: (P2 ++ m0 :: (S1 ++ m1 :: (S2 ++ m2 :: (S3 ++ m3 :: (S4 ++ m4 :: (S5 ++ m5 :: S6))))))) = (P1 ++ [cg] ++ P2 ++ [m0]) ++ S1 ++ (m1 :: (S2 ++ m2 :: (S3 ++ m3 :: (S4 ++ m4 :: (S5 ++ m5 :: S6))))) from by simp]
        rw [show 0 + P1.length + 1 + P2.length + 1 = ((P1 ++ [cg] ++ P2 ++ [m0])).length from by simp only [List.length_append, List.length_cons, List.length_singleton, List.length_nil]; omega]
        exact pySlice_block _ _ _]
      rw [show pySlice (P1 ++ cg :: (P2 ++ m0 :: (S1 ++ m1 :: (S2 ++ m2 :: (S3 ++ m3 :: (S4 ++ m4 :: (S5 ++ m5 :: S6))))))) (0 + P1.length + 1 + P2.length + 1 + S1.length + 1) (0 + P1.length + 1 + P2.length + 1 + S1.length + 1 + S2.length - 1) = S2.dropLast from by
        rw [show (P1 ++ cg :: (P2 ++ m0 :: (S1 ++ m1 :: (S2 ++ m2 :: (S3 ++ m3 :: (S4 ++ m4 :: (S5 ++ m5 :: S6))))))) = (P1 ++ [cg] ++ P2 ++ [m0] ++ S1 ++ [m1]) ++ S2 ++ (m2 :: (S3 ++ m3 :: (S4 ++ m4 :: (S5 ++ m5 :: S6)))) from by simp]
        rw [show 0 + P1.length + 1 + P2.length + 1 + S1.length + 1 = ((P1 ++ [cg] ++ P2 ++ [m0] ++ S1 ++ [m1])).length from by simp only [List.length_append, List.length_cons, List.length_singleton, List.length_nil]; omega]
        exact pySlice_block _ _ _]
      rw [show pySlice (P1 ++ cg :: (P2 ++ m0 :: (S1 ++ m1 :: (S2 ++ m2 :: (S3 ++ m3 :: (S4 ++ m4 :: (S5 ++ m5 :: S6))))))) (0 + P1.length + 1 + P2.length + 1 + S1.length + 1 + S2.length + 1) (0 + P1.length + 1 + P2.length + 1 + S1.length + 1 + S2.length + 1 + S3.length - 1) = S3.dropLast from by
        rw [show (P1 ++ cg :: (P2 ++ m0 :: (S1 ++ m1 :: (S2 ++ m2 :: (S3 ++ m3 :: (S4 ++ m4 :: (S5 ++ m5 :: S6))))))) = (P1 ++ [cg] ++ P2 ++ [m0] ++ S1 ++ [m1] ++ S2 ++ [m2]) ++ S3 ++ (m3 :: (S4 ++ m4 :: (S5 ++ m5 :: S6))) from by simp]
        rw [show 0 + P1.length + 1 + P2.length + 1 + S1.length + 1 + S2.length + 1 = ((P1 ++ [cg] ++ P2 ++ [m0] ++ S1 ++ [m1] ++ S2 ++ [m2])).length from by simp only [List.length_append, List.length_cons, List.length_singleton, List.length_nil]; omega]
        exact pySlice_block _ _ _]
      rw [show pySlice (P1 ++ cg :: (P2 ++ m0 :: (S1 ++ m1 :: (S2 ++ m2 :: (S3 ++ m3 :: (S4 ++ m4 :: (S5 ++ m5 :: S6))))))) (0 + P1.length + 1 + P2.length + 1 + S1.length + 1 + S2.length + 1 + S3.length + 1) (0 + P1.length + 1 + P2.length + 1 + S1.length + 1 + S2.length + 1 + S3.length + 1 + S4.length - 1) = S4.dropLast from by
        rw [show (P1 ++ cg :: (P2 ++ m0 :: (S1 ++ m1 :: (S2 ++ m2 :: (S3 ++ m3 :: (S4 ++ m4 :: (S5 ++ m5 :: S6))))))) = (P1 ++ [cg] ++ P2 ++ [m0] ++ S1 ++ [m1] ++ S2 ++ [m2] ++ S3 ++ [m3]) ++ S4 ++ (m4 :: (S5 ++ m5 :: S6)) from by simp]
        rw [show 0 + P1.length + 1 + P2.length + 1 + S1.length + 1 + S2.length + 1 + S3.length + 1 = ((P1 ++ [cg] ++ P2 ++ [m0] ++ S1 ++ [m1] ++ S2 ++ [m2] ++ S3 ++ [m3])).length from by simp only [List.length_append, List.length_cons, List.length_singleton, List.length_nil]; omega]
        exact pySlice_block _ _ _]
      rw [show pySlice (P1 ++ cg :: (P2 ++ m0 :: (S1 ++ m1 :: (S2 ++ m2 :: (S3 ++ m3 :: (S4 ++ m4 :: (S5 ++ m5 :: S6))))))) (0 + P1.length + 1 + P2.length + 1 + S1.length + 1 + S2.length + 1 + S3.length + 1 + S4.length + 1) (0 + P1.length + 1 + P2.length + 1 + S1.length + 1 + S2.length + 1 + S3.length + 1 + S4.length + 1 + S5.length - 1) = S5.dropLast from by
        rw [show (P1 ++ cg :: (P2 ++ m0 :: (S1 ++ m1 :: (S2 ++ m2 :: (S3 ++ m3 :: (S4 ++ m4 :: (S5 ++ m5 :: S6))))))) = (P1 ++ [cg] ++ P2 ++ [m0] ++ S1 ++ [m1] ++ S2 ++ [m2] ++ S3 ++ [m3] ++ S4 ++ [m4]) ++ S5 ++ (m5 :: S6) from by simp]
        rw [show 0 + P1.length + 1 + P2.length + 1 + S1.length + 1 + S2.length + 1 + S3.length + 1 + S4.length + 1 = ((P1 ++ [cg] ++ P2 ++ [m0] ++ S1 ++ [m1] ++ S2 ++ [m2] ++ S3 ++ [m3] ++ S4 ++ [m4])).length from by simp only [List.length_append, List.length_cons, List.length_singleton, List.length_nil]; omega]
        exact pySlice_block _ _ _]
      rw [show List.drop (0 + P1.length + 1 + P2.length + 1 + S1.length + 1 + S2.length + 1 + S3.length + 1 + S4.length + 1 + S5.length + 1) (P1 ++ cg :: (P2 ++ m0 :: (S1 ++ m1 :: (S2 ++ m2 :: (S3 ++ m3 :: (S4 ++ m4 :: (S5 ++ m5 :: S6))))))) = S6 from by
        rw [show (P1 ++ cg :: (P2 ++ m0 :: (S1 ++ m1 :: (S2 ++ m2 :: (S3 ++ m3 :: (S4 ++ m4 :: (S5 ++ m5 :: S6))))))) = (P1 ++ [cg] ++ P2 ++ [m0] ++ S1 ++ [m1] ++ S2 ++ [m2] ++ S3 ++ [m3] ++ S4 ++ [m4] ++ S5) ++ m5 :: S6 from by simp]
        rw [show 0 + P1.length + 1 + P2.length + 1 + S1.length + 1 + S2.length + 1 + S3.length + 1 + S4.length + 1 + S5.length + 1 = ((P1 ++ [cg] ++ P2 ++ [m0] ++ S1 ++ [m1] ++ S2 ++ [m2] ++ S3 ++ [m3] ++ S4 ++ [m4] ++ S5)).length + 1 from by simp only [List.length_append, List.length_cons, List.length_singleton, List.length_nil]; omega]
        exact drop_after_marker _ _ _]
      simp [findSegmentsResult]
  refine ⟨hmain, ?_⟩
  rw [hmain]
  simp only [List.map_cons, List.map_nil, List.sum_cons, List.sum_nil, List.length_map,
    List.length_dropLast, List.length_append, List.length_cons]
  omega

/-- Claim C1 (counterexample): on a concrete twenty-line log with all
six markers in order, the first closed segment is `["A"]` even though
the lines strictly between the first two markers are `["A", "B"]`, and
the segment line counts plus the six marker lines do not add up to the
input line count. -/
theorem c1_counterexample :
    (find_segments ["Buffout 4 v1.26.2", "Unhandled exception at 0x7FF7 | bad",
        "\t[Compatibility]", "A", "B", "SYSTEM SPECS:", "C", "D", "PROBABLE CALL STACK:",
        "E", "F", "MODULES:", "G", "H", "F4SE PLUGINS:", "I", "J", "PLUGINS:",
        "[00] Fallout4.esm", "[01] Foo.esp"] "F4SE" "Buffout 4" "Fallout 4").2.2.2 =
      [["A"], ["C"], ["E"], ["G"], ["I"], ["[00] Fallout4.esm", "[01] Foo.esp"]] ∧
    ([["A"], ["C"], ["E"], ["G"], ["I"],
        ["[00] Fallout4.esm", "[01] Foo.esp"]] : List (List String)).getD 0 [] ≠ ["A", "B"] ∧
    (([["A"], ["C"], ["E"], ["G"], ["I"],
        ["[00] Fallout4.esm", "[01] Foo.esp"]] : List (List String)).map List.length).sum + 6 ≠
      (["Buffout 4 v1.26.2", "Unhandled exception at 0x7FF7 | bad",
        "\t[Compatibility]", "A", "B", "SYSTEM SPECS:", "C", "D", "PROBABLE CALL STACK:",
        "E", "F", "MODULES:", "G", "H", "F4SE PLUGINS:", "I", "J", "PLUGINS:",
        "[00] Fallout4.esm", "[01] Foo.esp"] : List String).length := by
  refine ⟨by rfl, by decide, by decide⟩

/-- Claim C1 (witness): the amended theorem applied to a concrete
fourteen-line log; the first closed segment is `["A", "B"].dropLast`,
i.e. the line `"B"` before the `SYSTEM SPECS:` marker is dropped. -/
theorem c1_witness :
    (find_segments (([] : List String) ++ "Buffout 4 v1.26.2" :: (["Unhandled exception | bad"] ++ "\t[Compatibility]" :: (["A", "B"] ++ "SYSTEM SPECS:" :: (["C"] ++ "PROBABLE CALL STACK:" :: (([] : List String) ++ "MODULES:" :: (["G"] ++ "F4SE PLUGINS:" :: (["I"] ++ "PLUGINS:" :: ["[00] Fallout4.esm"]))))))) "F4SE" "Buffout 4" "Fallout 4").2.2.2 =
      [["A", "B"].dropLast.map pyStrip, ["C"].dropLast.map pyStrip,
        ([] : List String).dropLast.map pyStrip, ["G"].dropLast.map pyStrip,
        ["I"].dropLast.map pyStrip, ["[00] Fallout4.esm"].map pyStrip] ∧
    ((find_segments (([] : List String) ++ "Buffout 4 v1.26.2" :: (["Unhandled exception | bad"] ++ "\t[Compatibility]" :: (["A", "B"] ++ "SYSTEM SPECS:" :: (["C"] ++ "PROBABLE CALL STACK:" :: (([] : List String) ++ "MODULES:" :: (["G"] ++ "F4SE PLUGINS:" :: (["I"] ++ "PLUGINS:" :: ["[00] Fallout4.esm"]))))))) "F4SE" "Buffout 4" "Fallout 4").2.2.2.map List.length).sum + 6 +
        (([] : List String).length + 1 + (["Unhandled exception | bad"] : List String).length) +
        (min (["A", "B"] : List String).length 1 + min (["C"] : List String).length 1 +
          min ([] : List String).length 1 + min (["G"] : List String).length 1 +
          min (["I"] : List String).length 1) =
      (([] : List String) ++ "Buffout 4 v1.26.2" :: (["Unhandled exception | bad"] ++ "\t[Compatibility]" :: (["A", "B"] ++ "SYSTEM SPECS:" :: (["C"] ++ "PROBABLE CALL STACK:" :: (([] : List String) ++ "MODULES:" :: (["G"] ++ "F4SE PLUGINS:" :: (["I"] ++ "PLUGINS:" :: ["[00] Fallout4.esm"]))))))).length :=
  c1_closed_segment_drops_line_before_end_marker
    ([] : List String) ["Unhandled exception | bad"] ["A", "B"] ["C"] ([] : List String) ["G"] ["I"] ["[00] Fallout4.esm"] "Buffout 4 v1.26.2" "\t[Compatibility]" "SYSTEM SPECS:" "PROBABLE CALL STACK:" "MODULES:" "F4SE PLUGINS:" "PLUGINS:" "F4SE" "Buffout 4" "Fallout 4"
    (by decide) (by decide) (by decide) (by decide) (by decide) (by decide) (by decide) (by decide) (by decide) (by decide) (by decide) (by decide) (by decide) (by decide) (by decide) (by decide)

/-- `fsLoop_exit` with the cursor given explicitly, for rewriting. -/
theorem fsLoop_exit2 (C : List String) (bs : List (String × String)) (gr cn : String)
    (i : Nat) (h : C.length ≤ i) (co : Bool) (si ist : Nat) (sg : List (List String))
    (gv : Option String) (cgf me : Option String) (nb : String) (f : Nat) :
    findSegmentsLoop C bs gr cn f ⟨i, co, si, ist, sg, gv, cgf, me, nb⟩ =
      ⟨i, co, si, ist, sg, gv, cgf, me, nb⟩ :=
  fsLoop_exit C bs gr cn _ h f

/-- Claim C7 (amended): header capture is not independent.  Provided no
line begins the first boundary marker (so segmentation does not cut the
scan short), the analyzer version is the stripped first line starting
with the analyzer name, and the main error is taken from the first line
starting with `"Unhandled exception"` that occurs strictly after that
analyzer line (`"UNKNOWN"` when there is none); only the game version
is captured independently, first match over the whole log. -/
theorem c7_mainerror_capture_gated_by_crashgen_line
    (P1 R : List String) (cg : String) (xse cn gr : String)
    (hP1 : ∀ l ∈ P1, strStartsWith l cn = false)
    (hcg : strStartsWith cg cn = true)
    (hnm : ∀ l ∈ (P1 ++ cg :: R), strStartsWith l "\t[Compatibility]" = false) :
    (find_segments (P1 ++ cg :: R) xse cn gr).2.1 = pyStrip cg ∧
    (find_segments (P1 ++ cg :: R) xse cn gr).2.2.1 =
      ((R.find? (fun l => strStartsWith l "Unhandled exception")).map
        (fun l => replaceFirst l "|" "\n")).getD "UNKNOWN" ∧
    (find_segments (P1 ++ cg :: R) xse cn gr).1 =
      (if gr.isEmpty = true then "UNKNOWN"
       else (((P1 ++ cg :: R).find? (fun l => strStartsWith l gr)).map pyStrip).getD
         "UNKNOWN") := by
  have hres : find_segments (P1 ++ cg :: R) xse cn gr = findSegmentsResult
      ⟨0 + P1.length + 1 + R.length, false, 0, 0, [],
        gvUpdate gr (gvStep gr (gvUpdate gr none P1) cg) R, some (pyStrip cg),
        meUpdate none R, boundaryAt (segment_boundaries (strUpper xse)) 0 false⟩ := by
    simp only [find_segments]
    obtain ⟨f0, hf0⟩ : ∃ f0, 2 * (P1 ++ cg :: R).length + 1 = f0 + R.length + 1 + P1.length :=
      ⟨2 * (P1 ++ cg :: R).length + 1 - (R.length + 1 + P1.length), by
        simp only [List.length_append, List.length_cons]
        omega⟩
    rw [hf0]
    rw [fsLoop_pass_nocg (P1 ++ cg :: R) (segment_boundaries (strUpper xse)) gr cn P1 0
      (by
        intro k hk
        rw [show P1 ++ cg :: R = [] ++ P1 ++ (cg :: R) from by simp]
        rw [show 0 + k = ([] : List String).length + k from by simp]
        exact getD_append_block _ _ _ k hk)
      hP1 (by simp only [List.length_append, List.length_cons]; omega)]
    rw [fsLoop_step_setcg (P1 ++ cg :: R) (segment_boundaries (strUpper xse)) gr cn
      (0 + P1.length) (by simp only [List.length_append, List.length_cons]; omega) cg
      (by
        rw [show 0 + P1.length = P1.length from by omega]
        exact getD_append_cons _ _ _)
      hcg]
    rw [fsLoop_pass_scan (P1 ++ cg :: R) (segment_boundaries (strUpper xse)) gr cn false
      (boundaryAt (segment_boundaries (strUpper xse)) 0 false) (pyStrip cg) R
      (0 + P1.length + 1)
      (by
        intro k hk
        rw [show P1 ++ cg :: R = (P1 ++ [cg]) ++ R ++ [] from by simp]
        rw [show 0 + P1.length + 1 + k = (P1 ++ [cg]).length + k from by
          simp only [List.length_append, List.length_cons, List.length_nil]
          omega]
        exact getD_append_block _ _ _ k hk)
      (by
        intro l hl
        exact hnm l (by simp [hl]))
      (by simp only [List.length_append, List.length_cons]; omega)
      (Or.inl rfl)]
    rw [fsLoop_exit2 (P1 ++ cg :: R) (segment_boundaries (strUpper xse)) gr cn
      (0 + P1.length + 1 + R.length)
      (by simp only [List.length_append, List.length_cons]; omega)]
  rw [hres]
  have hgv : gvUpdate gr (gvStep gr (gvUpdate gr none P1) cg) R =
      gvUpdate gr none (P1 ++ cg :: R) := by
    rw [gvStep_eq_update, gvUpdate_append, gvUpdate_append]
    simp
  refine ⟨by simp [findSegmentsResult], by simp [findSegmentsResult, meUpdate], ?_⟩
  simp only [findSegmentsResult]
  rw [hgv]
  by_cases hge : gr.isEmpty = true
  · simp [gvUpdate, hge]
  · simp [gvUpdate, hge]

/-- Claim C7 (witness): the amended theorem applied to a concrete log
whose `Unhandled exception` line precedes the analyzer line, showing
the main error comes only from lines after the analyzer line. -/
theorem c7_witness :
    (find_segments (["Unhandled exception | early"] ++ "Buffout 4 v1.28" ::
        ["Unhandled exception | late"]) "F4SE" "Buffout 4" "Fallout 4").2.1 =
      pyStrip "Buffout 4 v1.28" ∧
    (find_segments (["Unhandled exception | early"] ++ "Buffout 4 v1.28" ::
        ["Unhandled exception | late"]) "F4SE" "Buffout 4" "Fallout 4").2.2.1 =
      (((["Unhandled exception | late"] : List String).find?
          (fun l => strStartsWith l "Unhandled exception")).map
        (fun l => replaceFirst l "|" "\n")).getD "UNKNOWN" ∧
    (find_segments (["Unhandled exception | early"] ++ "Buffout 4 v1.28" ::
        ["Unhandled exception | late"]) "F4SE" "Buffout 4" "Fallout 4").1 =
      (if ("Fallout 4" : String).isEmpty = true then "UNKNOWN"
       else ((((["Unhandled exception | early"] ++ "Buffout 4 v1.28" ::
           ["Unhandled exception | late"]) : List String).find?
             (fun l => strStartsWith l "Fallout 4")).map pyStrip).getD "UNKNOWN") :=
  c7_mainerror_capture_gated_by_crashgen_line ["Unhandled exception | early"]
    ["Unhandled exception | late"] "Buffout 4 v1.28" "F4SE" "Buffout 4" "Fallout 4"
    (by decide) (by decide) (by decide)

/-- Claim C7 (counterexample): a log whose `Unhandled exception` line
precedes the analyzer-version line yields mainError `"UNKNOWN"`, so the
three header fields are not captured independently. -/
theorem c7_counterexample :
    (find_segments ["Unhandled exception | X1", "Buffout 4 v1.30"]
        "F4SE" "Buffout 4" "Fallout 4").2.2.1 = "UNKNOWN" ∧
    (["Unhandled exception | X1", "Buffout 4 v1.30"] : List String).any
        (fun l => strStartsWith l "Unhandled exception") = true ∧
    replaceFirst "Unhandled exception | X1" "|" "\n" ≠ "UNKNOWN" := by
  refine ⟨by rfl, by decide, by decide⟩

end CLAS
